import Mathlib

/-!
Verification development for the `majik-subscription` library.

The TypeScript sources are shallowly embedded here:

* `src/src/enums.ts` and the utils module: month-key validation
  (`isValidYYYYMM`), month arithmetic (`monthsInPeriod`,
  `offsetMonthsToYYYYMM`), and the finance-snapshot constructors.
* the `MajikSubscription` class: its data model, COS and capacity mutators,
  the capacity resizing/redistribution algorithm, the dirty-flag-gated
  finance engine, trial application and JSON round-tripping.

Modelling conventions:

* JavaScript numbers that the program keeps integral (minor currency units,
  capacities, adjustments, quantities) are embedded as `Int`; the fractional
  inputs of `generateCapacityPlan` (base amount, growth rate) are embedded
  as `Rat` with exact arithmetic.
* The external `MajikMoney` library (an "external collaborator" per the
  spec) is embedded as a currency-tagged minor-unit integer; its
  currency-checked `add`/`subtract` return `Option` (`none` = the library
  throws on a currency mismatch).
* A method that can throw is embedded as a function returning
  `State × Option String`: the state component is the state of the object
  when the method returns *or throws* (JavaScript mutates in place, so a
  throw can leave earlier field writes behind), and the second component is
  `some errorMessage` exactly when the method throws.
* `updateTimestamp` reads the wall clock; mutators therefore take the fresh
  timestamp as an explicit `now` argument.
* `generateCapacityPlan` builds month keys with *local-time* `Date`
  getters applied to a UTC-normalized date, so its output depends on the
  host timezone; the embedding exposes this as the `tzWest` flag (true when
  the process timezone is west of UTC, in which case the UTC
  first-of-month instant falls on the previous local day, hence the
  previous local month).
-/

namespace Majik

/- ----------------------------------------------------------------
   Decimal rendering of numbers, as JavaScript template literals do
   (`String(n)`: no padding, '-' sign for negatives).
   A fuel parameter keeps the recursion structural.
   ---------------------------------------------------------------- -/

def digitChar (d : Nat) : Char := Char.ofNat (48 + d)

def natDigitsAux : Nat → Nat → List Char
  | 0, _ => []
  | fuel + 1, n =>
    if n < 10 then [digitChar n]
    else natDigitsAux fuel (n / 10) ++ [digitChar (n % 10)]

def natDigits (n : Nat) : List Char := natDigitsAux (n + 1) n

def natToString (n : Nat) : String := String.mk (natDigits n)

def intToString (i : Int) : String :=
  if i < 0 then "-" ++ natToString i.natAbs else natToString i.toNat

/-- `String(m).padStart(2, "0")` for the month component (1..12). -/
def pad2 (m : Nat) : String :=
  if m < 10 then "0" ++ natToString m else natToString m

/- ----------------------------------------------------------------
   Month keys.

   A calendar month is identified by its absolute index
   `year * 12 + (month - 1)`.  `ofIndex` renders the index the way the
   library's string templates do (`dateToYYYYMM`, `offsetMonthsToYYYYMM`:
   unpadded year, zero-padded month).
   ---------------------------------------------------------------- -/

def ofIndex (idx : Int) : String :=
  intToString (Int.fdiv idx 12) ++ "-" ++ pad2 (Int.fmod idx 12 + 1).toNat

/-- Strict parse of a month key of the exact shape `YYYY-MM` with a 4-digit
year and a month 01..12, returning its absolute month index. -/
def toIndex? (m : String) : Option Int :=
  match m.data with
  | [a, b, c, d, e, f, g] =>
    if a.isDigit && b.isDigit && c.isDigit && d.isDigit && e == '-'
        && f.isDigit && g.isDigit then
      let y : Nat := (a.toNat - 48) * 1000 + (b.toNat - 48) * 100
        + (c.toNat - 48) * 10 + (d.toNat - 48)
      let mo : Nat := (f.toNat - 48) * 10 + (g.toNat - 48)
      if 1 ≤ mo ∧ mo ≤ 12 then some ((y : Int) * 12 + (mo : Int) - 1)
      else none
    else none
  | _ => none

/-- The month-key pattern the spec demands: a 4-digit year, a hyphen, and a
2-digit month between 01 and 12, and nothing else. -/
def isStrictYYYYMM (m : String) : Bool := (toIndex? m).isSome

/- ----------------------------------------------------------------
   `isValidYYYYMM` (src/src/enums.ts line 88):

     return /^\d{4}-0[1-9]|1[0-2]$/.test(month);

   Regex alternation binds loosest, so the test succeeds when the string
   either STARTS with `\d{4}-0[1-9]` (first alternative, anchored only at
   the start) or ENDS with `1[0-2]` (second alternative, anchored only at
   the end).
   ---------------------------------------------------------------- -/

def matchStartAlt (l : List Char) : Bool :=
  match l with
  | a :: b :: c :: d :: e :: f :: g :: _ =>
    a.isDigit && b.isDigit && c.isDigit && d.isDigit && e == '-'
      && f == '0' && ('1' ≤ g && g ≤ '9')
  | _ => false

def matchEndAlt (l : List Char) : Bool :=
  match l.reverse with
  | b :: a :: _ => a == '1' && (b == '0' || b == '1' || b == '2')
  | _ => false

def isValidYYYYMM (m : String) : Bool :=
  matchStartAlt m.data || matchEndAlt m.data

/-- JavaScript string comparison (`<` on strings): lexicographic by code
unit.  Embedded directly on the character lists so that it evaluates
inside the kernel. -/
def strLtb : List Char → List Char → Bool
  | [], [] => false
  | [], _ :: _ => true
  | _ :: _, [] => false
  | a :: as, b :: bs =>
    if a < b then true else if b < a then false else strLtb as bs

def strLt (a b : String) : Bool := strLtb a.data b.data

/-- `!name || name.trim() === ""`: the string is empty or whitespace-only. -/
def isBlank (s : String) : Bool := s.data.all (·.isWhitespace)

/- ----------------------------------------------------------------
   MajikMoney (external library, embedded per its documented contract:
   arbitrary-precision minor-unit amounts, always currency-checked).
   ---------------------------------------------------------------- -/

structure Money where
  minor : Int
  currency : String
deriving DecidableEq

/-- `MajikMoney.add`: currency-checked; `none` embeds the thrown mismatch. -/
def Money.add (a b : Money) : Option Money :=
  if a.currency = b.currency then some ⟨a.minor + b.minor, a.currency⟩ else none

/-- `MajikMoney.subtract`: currency-checked. -/
def Money.subtract (a b : Money) : Option Money :=
  if a.currency = b.currency then some ⟨a.minor - b.minor, a.currency⟩ else none

/-- `MajikMoney.multiply` by an integral scalar. -/
def Money.multiply (a : Money) (k : Int) : Money := ⟨a.minor * k, a.currency⟩

def Money.isZero (a : Money) : Bool := a.minor == 0

/-- `MajikMoney.ratio`: the scalar ratio of two amounts. -/
def Money.ratio (a b : Money) : Rat := (a.minor : Rat) / (b.minor : Rat)

/-- `MajikMoney.fromMinor`. -/
def Money.fromMinor (minor : Int) (currency : String) : Money := ⟨minor, currency⟩

/-- `MajikMoney.fromMajor`: the external library's major→minor conversion
(embedded with two-decimal minor units; no property proved in this file
depends on the scale). -/
def Money.fromMajor (amount : Rat) (currency : String) : Money :=
  ⟨⌊amount * 100⌋, currency⟩

/- ----------------------------------------------------------------
   Enums (src/src/enums.ts).
   ---------------------------------------------------------------- -/

inductive SubscriptionStatus where
  | active | inactive | suspended | cancelled
deriving DecidableEq

inductive SubscriptionType where
  | recurring | oneTime | trial
deriving DecidableEq

inductive SubscriptionVisibility where
  | publicVis | privateVis
deriving DecidableEq

inductive BillingCycle where
  | daily | weekly | monthly | quarterly | yearly
deriving DecidableEq

inductive RateUnit where
  | perSubscriber | perAccount | perUser | perMonth
deriving DecidableEq

inductive CapacityPeriodResizeMode where
  | default | distribute
deriving DecidableEq

/- ----------------------------------------------------------------
   Data model (src/unnamed/part_001: types.ts).
   ---------------------------------------------------------------- -/

/-- `MonthlyCapacity`: one capacity-plan entry. -/
structure MonthlyCapacity where
  month : String
  capacity : Int
  adjustment : Option Int := none
deriving DecidableEq

/-- `COSItem`: a cost-of-subscription line item. -/
structure COSItem where
  id : String
  item : String
  unitCost : Money
  quantity : Int
  subtotal : Money
  unit : Option String := none
deriving DecidableEq

structure ValueRatio where
  value : Money
  marginRatio : Rat
deriving DecidableEq

structure GrossNet where
  gross : ValueRatio
  net : ValueRatio
deriving DecidableEq

structure SubscriptionFinance where
  profit : GrossNet
  revenue : GrossNet
  income : GrossNet
  cos : GrossNet
deriving DecidableEq

structure SubscriptionRate where
  amount : Money
  unit : RateUnit
  billingCycle : BillingCycle
deriving DecidableEq

structure SubscriptionDescription where
  text : String
  html : Option String := none
  seo : Option String := none
deriving DecidableEq

structure SubscriptionMetadata where
  sku : Option String := none
  description : SubscriptionDescription
  photos : Option (List String) := none
  type : SubscriptionType
  category : String
  rate : SubscriptionRate
  cos : List COSItem
  capacityPlan : Option (List MonthlyCapacity) := none
  finance : SubscriptionFinance
deriving DecidableEq

structure SystemSettings where
  isRestricted : Bool
  restrictedUntil : Option String := none
deriving DecidableEq

structure SubscriptionSettings where
  status : SubscriptionStatus
  visibility : SubscriptionVisibility
  system : Option SystemSettings := none
deriving DecidableEq

/-- The `MajikSubscription` class state (including the private
`financeDirty` flag). -/
structure Subscription where
  id : String
  slug : String
  name : String
  category : String
  rate : SubscriptionRate
  status : SubscriptionStatus
  type : SubscriptionType
  timestamp : String
  last_update : String
  metadata : SubscriptionMetadata
  settings : SubscriptionSettings
  financeDirty : Bool
deriving DecidableEq

/- ----------------------------------------------------------------
   Finance-snapshot constructors (src/src/enums.ts / utils).
   ---------------------------------------------------------------- -/

def createZeroValueRatio (currencyCode : String) : ValueRatio :=
  { value := Money.fromMinor 0 currencyCode, marginRatio := 0 }

def createEmptySubscriptionFinance (currencyCode : String) : SubscriptionFinance :=
  { revenue := ⟨createZeroValueRatio currencyCode, createZeroValueRatio currencyCode⟩
    income := ⟨createZeroValueRatio currencyCode, createZeroValueRatio currencyCode⟩
    profit := ⟨createZeroValueRatio currencyCode, createZeroValueRatio currencyCode⟩
    cos := ⟨createZeroValueRatio currencyCode, createZeroValueRatio currencyCode⟩ }

/- ----------------------------------------------------------------
   MajikSubscription: construction and basic helpers.
   ---------------------------------------------------------------- -/

/-- The class constructor.  `genId`/`genSlug` stand for the random
`autogenerateID`/`generateSlug` outputs, consumed only when the supplied
`id`/`slug` are absent or empty (JavaScript `||` treats `""` as falsy). -/
def mkSubscription (id slug : Option String) (name : String)
    (metadata : SubscriptionMetadata) (settings : SubscriptionSettings)
    (timestamp last_update : String) (genId genSlug : String) : Subscription :=
  { id := match id with | some v => if v = "" then genId else v | none => genId
    slug := match slug with | some v => if v = "" then genSlug else v | none => genSlug
    name := name
    metadata := metadata
    settings := settings
    type := metadata.type
    category := metadata.category
    rate := metadata.rate
    status := settings.status
    timestamp := timestamp
    last_update := last_update
    financeDirty := true }

/-- The static `initialize` factory of `MajikSubscription` (named
`Subscription.init` here because `initialize` is reserved in Lean).
`none` embeds the thrown `InvalidArgument`; `now` is the wall-clock
timestamp. -/
def Subscription.init (name : String) (type : SubscriptionType)
    (rate : SubscriptionRate) (category : String)
    (descriptionText skuID : Option String)
    (genId genSlug now : String) : Option Subscription :=
  if isBlank name then none
  else if isBlank category then none
  else
    let descText := match descriptionText with
      | some t => if t = "" then "A new subscription." else t
      | none => "A new subscription."
    let sku := match skuID with
      | some t => if t = "" then none else some t
      | none => none
    let defaultMetadata : SubscriptionMetadata :=
      { description := ⟨descText, none, none⟩
        type := type
        category := category
        rate := rate
        sku := sku
        cos := []
        capacityPlan := none
        finance := createEmptySubscriptionFinance rate.amount.currency }
    let defaultSettings : SubscriptionSettings :=
      ⟨SubscriptionStatus.active, SubscriptionVisibility.privateVis, some ⟨false, none⟩⟩
    some (mkSubscription none none name defaultMetadata defaultSettings now now genId genSlug)

/-- `DEFAULT_ZERO()`: zero money in the subscription currency
(`this.rate?.amount?.currency?.code || "PHP"`). -/
def Subscription.DEFAULT_ZERO (s : Subscription) : Money :=
  Money.fromMinor 0
    (if s.rate.amount.currency = "" then "PHP" else s.rate.amount.currency)

def Subscription.hasCapacity (s : Subscription) : Bool :=
  (s.metadata.capacityPlan.getD []).length > 0

/-- Effective units of one entry: `capacity + (adjustment ?? 0)`. -/
def effUnits (c : MonthlyCapacity) : Int := c.capacity + c.adjustment.getD 0

/-- `totalCapacity` getter: `reduce((sum, c) => sum + c.capacity +
(c.adjustment ?? 0), 0)`. -/
def Subscription.totalCapacity (s : Subscription) : Int :=
  (s.metadata.capacityPlan.getD []).foldl
    (fun sum c => sum + c.capacity + c.adjustment.getD 0) 0

/- ----------------------------------------------------------------
   Metadata mutators (the ones that can throw).
   ---------------------------------------------------------------- -/

/-- `setRateAmount`: rejects a non-positive amount before any write, then
replaces both `this.rate.amount` and `this.metadata.rate.amount`. -/
def Subscription.setRateAmount (s : Subscription) (amount : Rat)
    (now : String) : Subscription × Option String :=
  if amount ≤ 0 then (s, some "Rate Amount must be positive")
  else
    ({ s with
        rate.amount := Money.fromMajor amount s.rate.amount.currency
        metadata.rate.amount :=
          Money.fromMajor amount s.metadata.rate.amount.currency
        last_update := now
        financeDirty := true }, none)

/-- `setDescription`: validates both strings before either write. -/
def Subscription.setDescription (s : Subscription) (html text : String)
    (now : String) : Subscription × Option String :=
  if isBlank html then (s, some "HTML must be a valid non-empty string.")
  else if isBlank text then (s, some "Text must be a valid non-empty string.")
  else
    ({ s with
        metadata.description.html := some html
        metadata.description.text := text
        last_update := now }, none)

/-- `setDescriptionText`. -/
def Subscription.setDescriptionText (s : Subscription) (text : String)
    (now : String) : Subscription × Option String :=
  if isBlank text then
    (s, some "Description Text must be a valid non-empty string.")
  else
    ({ s with metadata.description.text := text, last_update := now }, none)

/-- `setDescriptionHTML`. -/
def Subscription.setDescriptionHTML (s : Subscription) (html : String)
    (now : String) : Subscription × Option String :=
  if isBlank html then
    (s, some "Description HTML must be a valid non-empty string.")
  else
    ({ s with metadata.description.html := some html, last_update := now }, none)

/- ----------------------------------------------------------------
   COS mutators.
   ---------------------------------------------------------------- -/

/-- The `updates` argument of `updateCOS`
(`Partial<Pick<COSItem, "quantity" | "unitCost" | "unit" | "item">>`). -/
structure COSUpdates where
  quantity : Option Int := none
  unitCost : Option Money := none
  unit : Option String := none
  item : Option String := none
deriving DecidableEq

/-- The final phase of `updateCOS`: item-name write (only when the new name
is non-blank), unit write (`??`), subtotal recomputation, timestamp and
dirty flag. -/
def Subscription.updateCOSFinish (s : Subscription) (idx : Nat) (c : COSItem)
    (u : COSUpdates) (now : String) : Subscription × Option String :=
  let c3 := match u.item with
    | some nm => if ¬ isBlank nm then { c with item := nm } else c
    | none => c
  let c4 := { c3 with unit := match u.unit with | some v => some v | none => c3.unit }
  let c5 := { c4 with subtotal := c4.unitCost.multiply c4.quantity }
  ({ s with metadata.cos := s.metadata.cos.set idx c5
            last_update := now
            financeDirty := true }, none)

/-- The middle phase of `updateCOS`: unit-cost currency check
(`if (updates.unitCost) { assertCurrency; ... }`) and write. -/
def Subscription.updateCOSAfterQuantity (s : Subscription) (idx : Nat)
    (c : COSItem) (u : COSUpdates) (now : String) : Subscription × Option String :=
  match u.unitCost with
  | some m =>
    if m.currency ≠ s.rate.amount.currency then
      (s, some "Currency mismatch with subscription rate")
    else
      let c2 := { c with unitCost := m }
      Subscription.updateCOSFinish
        { s with metadata.cos := s.metadata.cos.set idx c2 } idx c2 u now
  | none => Subscription.updateCOSFinish s idx c u now

/-- `updateCOS`.  Mirrors the method's statement order: the quantity is
validated and written *before* the unit-cost currency is checked, so a
currency mismatch throws with the quantity already committed (JavaScript
mutates the found item in place). -/
def Subscription.updateCOS (s : Subscription) (cid : String) (u : COSUpdates)
    (now : String) : Subscription × Option String :=
  match s.metadata.cos.findIdx? (fun c => c.id == cid) with
  | none => (s, some "COS item not found")
  | some idx =>
    let c0 := s.metadata.cos.getD idx ⟨"", "", ⟨0, ""⟩, 0, ⟨0, ""⟩, none⟩
    match u.quantity with
    | some q =>
      if q ≤ 0 then (s, some "Quantity must be positive")
      else
        let c1 := { c0 with quantity := q }
        let s1 := { s with metadata.cos := s.metadata.cos.set idx c1 }
        Subscription.updateCOSAfterQuantity s1 idx c1 u now
    | none => Subscription.updateCOSAfterQuantity s idx c0 u now

/-- The `forEach` validation loop of `setCOS`: empty id or name fails the
required-property check (`""` is falsy; `unitCost`, `quantity` and
`subtotal` are structurally present in this embedding), then
`assertCurrency`. -/
def validateCOSItems (rateCur : String) : List COSItem → Option String
  | [] => none
  | c :: rest =>
    if c.id = "" || c.item = "" then
      some "Each COSItem must have id, item, unitCost, quantity, and subtotal"
    else if c.unitCost.currency ≠ rateCur then
      some "Currency mismatch with subscription rate"
    else validateCOSItems rateCur rest

/-- `setCOS`: validates every item, then replaces the whole list. -/
def Subscription.setCOS (s : Subscription) (items : List COSItem)
    (now : String) : Subscription × Option String :=
  match validateCOSItems s.rate.amount.currency items with
  | some e => (s, some e)
  | none =>
    ({ s with metadata.cos := items, last_update := now, financeDirty := true }, none)

/-- `addCOS`: name, quantity and currency checks, then the push.  `genId`
stands for the generated `mjksubcost` id. -/
def Subscription.addCOS (s : Subscription) (name : String) (unitCost : Money)
    (quantity : Int) (unit : Option String) (genId now : String) :
    Subscription × Option String :=
  if isBlank name then (s, some "COS name cannot be empty")
  else if quantity ≤ 0 then (s, some "COS quantity must be greater than zero")
  else if unitCost.currency ≠ s.rate.amount.currency then
    (s, some "Currency mismatch with subscription rate")
  else
    let newItem : COSItem :=
      { id := genId, item := name, quantity := quantity, unitCost := unitCost
        unit := unit, subtotal := unitCost.multiply quantity }
    ({ s with metadata.cos := s.metadata.cos ++ [newItem]
              last_update := now
              financeDirty := true }, none)

/-- `pushCOS`: id, name, quantity and currency checks, then the push.  The
subtotal rewrite on line 376 mutates the *argument* object, not the
subscription, and happens after every validation anyway. -/
def Subscription.pushCOS (s : Subscription) (item : COSItem)
    (now : String) : Subscription × Option String :=
  if item.id = "" then (s, some "COS item must have an id")
  else if isBlank item.item then (s, some "COS item must have a name")
  else if item.quantity ≤ 0 then
    (s, some "COS quantity must be greater than zero")
  else if item.unitCost.currency ≠ s.rate.amount.currency then
    (s, some "Currency mismatch with subscription rate")
  else
    let pushed := { item with subtotal := item.unitCost.multiply item.quantity }
    ({ s with metadata.cos := s.metadata.cos ++ [pushed]
              last_update := now
              financeDirty := true }, none)

/-- `removeCOS`: lookup check, then the splice. -/
def Subscription.removeCOS (s : Subscription) (cid : String)
    (now : String) : Subscription × Option String :=
  match s.metadata.cos.findIdx? (fun c => c.id == cid) with
  | none => (s, some "COS item not found")
  | some idx =>
    ({ s with metadata.cos := s.metadata.cos.eraseIdx idx
              last_update := now
              financeDirty := true }, none)

/- ----------------------------------------------------------------
   Capacity mutators.
   ---------------------------------------------------------------- -/

/-- The `forEach` validation loop of `setCapacity` (the
`typeof s.capacity !== "number"` arm cannot fire in this embedding, where
`capacity` is an `Int`).  Note: no duplicate-month check. -/
def validateCapacityEntries : List MonthlyCapacity → Option String
  | [] => none
  | e :: rest =>
    if ¬ isValidYYYYMM e.month then some ("Invalid month: " ++ e.month)
    else validateCapacityEntries rest

/-- `setCapacity`: validates every entry's month format, then replaces the
whole plan. -/
def Subscription.setCapacity (s : Subscription) (capacityPlan : List MonthlyCapacity)
    (now : String) : Subscription × Option String :=
  match validateCapacityEntries capacityPlan with
  | some e => (s, some e)
  | none =>
    ({ s with metadata.capacityPlan := some capacityPlan
              last_update := now
              financeDirty := true }, none)

/-- `addCapacity`: month-format check, then
`this.metadata.capacityPlan ??= []`, then the duplicate-month check, then
push.  On the duplicate throw the `??=` write is already in place (it only
materializes an empty array, in which no duplicate is possible). -/
def Subscription.addCapacity (s : Subscription) (month : String) (units : Int)
    (adjustment : Option Int) (now : String) : Subscription × Option String :=
  if ¬ isValidYYYYMM month then (s, some "Invalid month")
  else
    let plan := s.metadata.capacityPlan.getD []
    let s1 := { s with metadata.capacityPlan := some plan }
    if plan.any (fun e => e.month == month) then
      (s1, some "Month already exists. Use updateCapacityUnits or updateCapacityAdjustment")
    else
      ({ s1 with metadata.capacityPlan := some (plan ++ [⟨month, units, adjustment⟩])
                 last_update := now
                 financeDirty := true }, none)

/-- `updateCapacityUnits`: month-format and lookup checks, then the
in-place capacity write on the first matching entry (`.find`). -/
def Subscription.updateCapacityUnits (s : Subscription) (month : String)
    (units : Int) (now : String) : Subscription × Option String :=
  if ¬ isValidYYYYMM month then (s, some "Invalid month")
  else
    let plan := s.metadata.capacityPlan.getD []
    match plan.findIdx? (fun e => e.month == month) with
    | none => (s, some "Month not found")
    | some idx =>
      let e := plan.getD idx ⟨"", 0, none⟩
      ({ s with
          metadata.capacityPlan := some (plan.set idx { e with capacity := units })
          last_update := now
          financeDirty := true }, none)

/-- `updateCapacityAdjustment`: like `updateCapacityUnits`, writing the
(possibly absent) adjustment. -/
def Subscription.updateCapacityAdjustment (s : Subscription) (month : String)
    (adjustment : Option Int) (now : String) : Subscription × Option String :=
  if ¬ isValidYYYYMM month then (s, some "Invalid month")
  else
    let plan := s.metadata.capacityPlan.getD []
    match plan.findIdx? (fun e => e.month == month) with
    | none => (s, some "Month not found")
    | some idx =>
      let e := plan.getD idx ⟨"", 0, none⟩
      ({ s with
          metadata.capacityPlan :=
            some (plan.set idx { e with adjustment := adjustment })
          last_update := now
          financeDirty := true }, none)

/-- `removeCapacity`: month-format and lookup checks (an undefined plan
gives an undefined index, hence the same throw), then the splice. -/
def Subscription.removeCapacity (s : Subscription) (month : String)
    (now : String) : Subscription × Option String :=
  if ¬ isValidYYYYMM month then (s, some "Invalid month")
  else
    match s.metadata.capacityPlan with
    | none => (s, some "Month not found")
    | some plan =>
      match plan.findIdx? (fun e => e.month == month) with
      | none => (s, some "Month not found")
      | some idx =>
        ({ s with metadata.capacityPlan := some (plan.eraseIdx idx)
                  last_update := now
                  financeDirty := true }, none)

/-- `normalizeCapacityUnits`: amount and plan checks before any write; a
one-entry plan returns unchanged without touching timestamp or dirty flag
(the documented no-op).  The amount is embedded as `Int` like the
`capacity` field it overwrites (`Number.isFinite` holds by embedding). -/
def Subscription.normalizeCapacityUnits (s : Subscription) (amount : Int)
    (now : String) : Subscription × Option String :=
  if amount < 0 then (s, some "Amount must be a non-negative number")
  else
    match s.metadata.capacityPlan with
    | none => (s, some "Supply plan is empty")
    | some supply =>
      if supply.length = 0 then (s, some "Supply plan is empty")
      else if supply.length = 1 then (s, none)
      else
        ({ s with
            metadata.capacityPlan :=
              some (supply.map (fun e => { e with capacity := amount }))
            last_update := now
            financeDirty := true }, none)

/-- `Math.round` on a non-negative JavaScript number (half away from
zero · half up): `⌊x + 1/2⌋`. -/
def jsRound (q : Rat) : Int := ⌊q + 1 / 2⌋

/-- `generateCapacityPlan`.  `startIdx` is the absolute index of the UTC
month that `normalizeStartDate` floors the start input to.  The loop reads
that UTC date back with *local-time* getters, which lands one month earlier
whenever the process timezone is west of UTC (`tzWest`).  Entry `i` holds
`Math.round(amount * (1+growthRate)^i)`: `currentUnits` is multiplied by
`1 + growthRate` after each push (only when `growthRate > 0`, which agrees
with the closed form since `(1+0)^i = 1`), and only the pushed value is
rounded.  (`Number.isInteger(months)` and `Number.isFinite(amount)` hold
by the `Int`/`Rat` embedding.) -/
def Subscription.generateCapacityPlan (s : Subscription) (months : Int)
    (amount growthRate : Rat) (startIdx : Int) (tzWest : Bool)
    (now : String) : Subscription × Option String :=
  if months ≤ 0 then (s, some "Months must be a positive integer")
  else if amount < 0 then (s, some "Amount must be a non-negative number")
  else if growthRate < 0 then (s, some "Growth rate cannot be negative")
  else
    let localStart := startIdx - (if tzWest then 1 else 0)
    let supplyPlan : List MonthlyCapacity :=
      (List.range months.toNat).map (fun (i : Nat) =>
        { month := ofIndex (localStart + (i : Int))
          capacity := jsRound (amount * (1 + growthRate) ^ i) })
    s.setCapacity supplyPlan now

/-- The plan-rebuilding loops of `recomputeCapacityPeriod`, over the month
indices `i = toIndex(start)` and `j = toIndex(end)`:

* `default` mode: entry `k` copies `oldPlan[k]` when it exists, else
  `oldPlan[oldLength - 1]` (the stored plan is *not* sorted first).
* `distribute` mode: the loop decrements `remainder` once per iteration
  whether or not it is still positive, so entry `k` receives the `+1` extra
  exactly when `k < total % newLength` (JavaScript `%`, which truncates
  toward zero: `Int.tmod`); `Math.floor(total / newLength)` is `Int.fdiv`. -/
def recomputePlan (oldPlan : List MonthlyCapacity) (total : Int) (i j : Int)
    (mode : CapacityPeriodResizeMode) : List MonthlyCapacity :=
  let newLength : Int := j - i + 1
  let n : Nat := newLength.toNat
  let oldLength := oldPlan.length
  match mode with
  | CapacityPeriodResizeMode.default =>
    (List.range n).map (fun (k : Nat) =>
      let source := if k < oldLength then oldPlan.getD k ⟨"", 0, none⟩
        else oldPlan.getD (oldLength - 1) ⟨"", 0, none⟩
      { month := ofIndex (i + (k : Int))
        capacity := source.capacity
        adjustment := source.adjustment })
  | CapacityPeriodResizeMode.distribute =>
    let base := Int.fdiv total newLength
    let rem := Int.tmod total newLength
    (List.range n).map (fun (k : Nat) =>
      { month := ofIndex (i + (k : Int))
        capacity := base + (if (k : Int) < rem then 1 else 0)
        adjustment := none })

/-- `recomputeCapacityPeriod`: guards in source order, then the rebuild.

Month keys that pass the (buggy) `isValidYYYYMM` but are not strict
`YYYY-MM` would be normalized by the JavaScript `Date` machinery; that path
is outside this embedding and is mapped to an error. -/
def Subscription.recomputeCapacityPeriod (s : Subscription) (startK endK : String)
    (mode : CapacityPeriodResizeMode) (now : String) : Subscription × Option String :=
  if ¬ (isValidYYYYMM startK ∧ isValidYYYYMM endK) then
    (s, some "Invalid YYYYMM period")
  else if ¬ s.hasCapacity then
    (s, some "No existing capacity plan to recompute")
  else if strLt endK startK then
    (s, some "Start month must be <= end month")
  else
    match toIndex? startK, toIndex? endK with
    | some i, some j =>
      let newPlan : List MonthlyCapacity :=
        recomputePlan (s.metadata.capacityPlan.getD []) s.totalCapacity i j mode
      ({ s with metadata.capacityPlan := some newPlan
                last_update := now
                financeDirty := true }, none)
    | _, _ => (s, some "non-strict month key: JS Date normalization not modeled")

/- ----------------------------------------------------------------
   applyTrial.
   ---------------------------------------------------------------- -/

/-- Stable insertion preserving the original order of equal month keys,
matching the stable `Array.prototype.sort` with `localeCompare`. -/
def insertByMonth (e : MonthlyCapacity) : List MonthlyCapacity → List MonthlyCapacity
  | [] => [e]
  | x :: xs =>
    if strLt x.month e.month then x :: insertByMonth e xs else e :: x :: xs

def sortByMonth (l : List MonthlyCapacity) : List MonthlyCapacity :=
  l.foldr insertByMonth []

/-- `applyTrial`: validates `months`, returns untouched (no timestamp, no
dirty flag) when the capacity plan was never set, otherwise sorts the plan
chronologically and subtracts each of the first `min(months, length)`
entries' capacity from its adjustment. -/
def Subscription.applyTrial (s : Subscription) (months : Int)
    (now : String) : Subscription × Option String :=
  if months ≤ 0 then (s, some "Trial months must be a positive integer")
  else
    match s.metadata.capacityPlan with
    | none => (s, none)
    | some plan =>
      let sorted := sortByMonth plan
      let adjusted := sorted.mapIdx (fun idx e =>
        if (idx : Int) < months then
          { e with adjustment := some (e.adjustment.getD 0 - e.capacity) }
        else e)
      ({ s with metadata.capacityPlan := some adjusted
                last_update := now
                financeDirty := true }, none)

/- ----------------------------------------------------------------
   Finance engine.
   ---------------------------------------------------------------- -/

/-- `computeGrossRevenue()`: Σ `rateAmount × effectiveUnits` over the plan,
accumulated from the zero seed in the subscription currency. -/
def Subscription.computeGrossRevenue (s : Subscription) : Option Money :=
  (s.metadata.capacityPlan.getD []).foldl
    (fun acc e => acc.bind fun a => a.add (s.rate.amount.multiply (effUnits e)))
    (some s.DEFAULT_ZERO)

/-- The inner `unitCOS` reduction of `computeGrossCOS` (also the `unitCost`
getter): Σ subtotal over all COS items. -/
def Subscription.unitCOSTotal (s : Subscription) : Option Money :=
  s.metadata.cos.foldl (fun acc c => acc.bind fun a => a.add c.subtotal)
    (some s.DEFAULT_ZERO)

/-- `computeGrossCOS()`: Σ `unitCOS × effectiveUnits` over the plan. -/
def Subscription.computeGrossCOS (s : Subscription) : Option Money :=
  s.unitCOSTotal.bind fun unitCOS =>
    (s.metadata.capacityPlan.getD []).foldl
      (fun acc e => acc.bind fun a => a.add (unitCOS.multiply (effUnits e)))
      (some s.DEFAULT_ZERO)

/-- `computeGrossProfit()` = grossRevenue − grossCOS. -/
def Subscription.computeGrossProfit (s : Subscription) : Option Money :=
  s.computeGrossRevenue.bind fun r => s.computeGrossCOS.bind fun c => r.subtract c

/-- `recomputeFinance()`: returns immediately when the cache is clean,
otherwise rebuilds the whole snapshot and clears the dirty flag. -/
def Subscription.recomputeFinance (s : Subscription) : Option Subscription :=
  if ¬ s.financeDirty then some s
  else
    s.computeGrossRevenue.bind fun grossRevenue =>
    s.computeGrossCOS.bind fun grossCOS =>
    s.computeGrossProfit.bind fun grossProfit =>
    let grossIncome := grossProfit
    let revenueMargin : Rat :=
      if grossRevenue.isZero then 0 else grossProfit.ratio grossRevenue
    let cosMargin : Rat :=
      if grossRevenue.isZero then 0 else grossCOS.ratio grossRevenue
    some { s with
      metadata.finance :=
        { revenue := ⟨⟨grossRevenue, 1⟩, ⟨grossRevenue, 1⟩⟩
          cos := ⟨⟨grossCOS, cosMargin⟩, ⟨grossCOS, cosMargin⟩⟩
          profit := ⟨⟨grossProfit, revenueMargin⟩, ⟨grossProfit, revenueMargin⟩⟩
          income := ⟨⟨grossIncome, revenueMargin⟩, ⟨grossIncome, revenueMargin⟩⟩ }
      financeDirty := false }

/-- `grossRevenue` getter: recompute-if-dirty, then read the snapshot.  The
pair returns the observed value together with the instance state after the
call (the recomputation mutates `this`). -/
def Subscription.grossRevenue (s : Subscription) : Option (Money × Subscription) :=
  s.recomputeFinance.map fun s1 => (s1.metadata.finance.revenue.gross.value, s1)

/-- `grossCost` getter. -/
def Subscription.grossCost (s : Subscription) : Option (Money × Subscription) :=
  s.recomputeFinance.map fun s1 => (s1.metadata.finance.cos.gross.value, s1)

/-- `grossProfit` getter. -/
def Subscription.grossProfit (s : Subscription) : Option (Money × Subscription) :=
  s.recomputeFinance.map fun s1 => (s1.metadata.finance.profit.gross.value, s1)

/-- `netRevenue` getter. -/
def Subscription.netRevenue (s : Subscription) : Option (Money × Subscription) :=
  s.recomputeFinance.map fun s1 => (s1.metadata.finance.revenue.net.value, s1)

/-- `netProfit` getter. -/
def Subscription.netProfit (s : Subscription) : Option (Money × Subscription) :=
  s.recomputeFinance.map fun s1 => (s1.metadata.finance.profit.net.value, s1)

/-- `getRevenue(month)`: throws `InvalidMonth` (here `none`) when the month
key fails `isValidYYYYMM`; otherwise the revenue of that exact month, or
zero money when the month is absent from the plan. -/
def Subscription.getRevenue (s : Subscription) (month : String) : Option Money :=
  if ¬ isValidYYYYMM month then none
  else
    match (s.metadata.capacityPlan.getD []).find? (fun e => e.month == month) with
    | none => some s.DEFAULT_ZERO
    | some plan => some (s.rate.amount.multiply (effUnits plan))

/- ----------------------------------------------------------------
   Serialization (toJSON / parseFromJSON).

   The external `serializeMoney` / `deserializeMoney` adapter converts
   monetary values to a currency-tagged minor-unit representation and back;
   this embedding's `Money` already is that representation, so the adapter
   pair acts as the identity here.
   ---------------------------------------------------------------- -/

/-- The plain structure emitted by `toJSON()` (type markers omitted). -/
structure SubscriptionJSON where
  id : String
  slug : String
  name : String
  category : String
  rate : SubscriptionRate
  status : SubscriptionStatus
  type : SubscriptionType
  timestamp : String
  last_update : String
  metadata : SubscriptionMetadata
  settings : SubscriptionSettings
deriving DecidableEq

def Subscription.toJSON (s : Subscription) : SubscriptionJSON :=
  { id := s.id, slug := s.slug, name := s.name, category := s.category
    rate := s.rate, status := s.status, type := s.type
    timestamp := s.timestamp, last_update := s.last_update
    metadata := s.metadata, settings := s.settings }

/-- `parseFromJSON`: fails (`none`, the thrown `MissingField`) when `id` or
`timestamp` is empty (falsy); `metadata` and `settings` are structurally
present in `SubscriptionJSON`.  Otherwise rebuilds the entity through the
class constructor. -/
def parseFromJSON (j : SubscriptionJSON) (genId genSlug : String) : Option Subscription :=
  if j.id = "" then none
  else if j.timestamp = "" then none
  else some (mkSubscription (some j.id) (some j.slug) j.name j.metadata
    j.settings j.timestamp j.last_update genId genSlug)

/- ----------------------------------------------------------------
   Concrete states used as witnesses and counterexamples (modelled on the
   README example: a PHP-denominated recurring plan).
   ---------------------------------------------------------------- -/

def rate0 : SubscriptionRate :=
  ⟨⟨2900, "PHP"⟩, RateUnit.perUser, BillingCycle.monthly⟩

/-- A freshly initialized subscription: empty COS, capacity plan never
set, zeroed finance snapshot, dirty flag up. -/
def sub0 : Subscription :=
  { id := "mjksub-A1b2C3d4"
    slug := "pro-plan-x4tf9z"
    name := "Pro Plan"
    category := "Other"
    rate := rate0
    status := SubscriptionStatus.active
    type := SubscriptionType.recurring
    timestamp := "2025-01-01T00:00:00.000Z"
    last_update := "2025-01-01T00:00:00.000Z"
    metadata :=
      { description := ⟨"A new subscription.", none, none⟩
        type := SubscriptionType.recurring
        category := "Other"
        rate := rate0
        cos := []
        capacityPlan := none
        finance := createEmptySubscriptionFinance "PHP" }
    settings := ⟨SubscriptionStatus.active, SubscriptionVisibility.privateVis,
      some ⟨false, none⟩⟩
    financeDirty := true }

/-- A plan whose total effective capacity is negative (reachable, e.g. via
`updateCapacityAdjustment` or `setCapacity`, which do not constrain
adjustments): one month of capacity 0 with adjustment −5. -/
def subNegTotal : Subscription :=
  { sub0 with metadata.capacityPlan := some [⟨"2025-01", 0, some (-5)⟩] }

/-- A capacity plan stored out of chronological order (reachable via
`setCapacity` or `addCapacity` in any order). -/
def subUnsorted : Subscription :=
  { sub0 with
      metadata.capacityPlan := some [⟨"2025-02", 5, none⟩, ⟨"2025-01", 7, none⟩] }

def cosHosting : COSItem :=
  ⟨"mjksubcost-h1", "Cloud Hosting", ⟨30000, "PHP"⟩, 1, ⟨30000, "PHP"⟩, none⟩

/-- One COS item, two plan months. -/
def subFin : Subscription :=
  { sub0 with
      metadata.cos := [cosHosting]
      metadata.capacityPlan := some [⟨"2025-01", 2, none⟩, ⟨"2025-02", 3, some 1⟩] }

/-- `sub0` after its first finance recomputation (empty plan: all values
zero, margins zero). -/
def sub0Recomputed : Subscription := sub0.recomputeFinance.getD sub0

/- ================================================================
   Helper lemmas.
   ================================================================ -/

/-- Re-writing `metadata.capacityPlan` with the value it already holds is
the identity (structure eta). -/
theorem plan_update_self (s : Subscription) {p : List MonthlyCapacity}
    (h : s.metadata.capacityPlan = some p) :
    { s with metadata.capacityPlan := some p } = s := by
  rw [← h]

/-- Indexing a map over `List.range`. -/
theorem getD_map_range {α : Type} (f : Nat → α) (d : α) {n k : Nat} (h : k < n) :
    ((List.range n).map f).getD k d = f k := by
  rw [List.getD_eq_getElem?_getD, List.getElem?_map, List.getElem?_range h]
  rfl

/-- Summing `base` plus an indicator of `k < r` over `k = 0 .. n-1`. -/
theorem sum_base_indicator (base r : Int) (hr : 0 ≤ r) :
    ∀ n : Nat,
      ((List.range n).map (fun (k : Nat) => base + if (k : Int) < r then 1 else 0)).sum
        = n * base + min r n := by
  intro n
  induction n with
  | zero => simp; omega
  | succ m ih =>
    rw [List.range_succ, List.map_append, List.sum_append]
    simp only [List.map_cons, List.map_nil, List.sum_cons, List.sum_nil, ih]
    have hmin : min r ((m : Int) + 1) = min r (m : Int)
        + (if (m : Int) < r then 1 else 0) := by
      by_cases hc : (m : Int) < r <;> simp only [hc, if_true, if_false] <;> omega
    push_cast
    rw [hmin]
    by_cases hc : (m : Int) < r <;> simp only [hc, if_true, if_false] <;> ring

/-- `foldl` form of the capacity total. -/
theorem foldl_add_eff (l : List MonthlyCapacity) :
    ∀ a : Int,
      l.foldl (fun sum c => sum + c.capacity + c.adjustment.getD 0) a
        = a + (l.map effUnits).sum := by
  induction l with
  | nil => intro a; simp
  | cons x xs ih =>
    intro a
    simp only [List.foldl_cons, List.map_cons, List.sum_cons, ih]
    unfold effUnits
    ring

/-- `totalCapacity` is the sum of effective units over the plan. -/
theorem totalCapacity_eq (s : Subscription) :
    s.totalCapacity = ((s.metadata.capacityPlan.getD []).map effUnits).sum := by
  unfold Subscription.totalCapacity
  rw [foldl_add_eff]
  ring

/-- The accumulation pattern of `computeGrossRevenue`/`computeGrossCOS`:
folding currency-checked additions of `m.multiply (effUnits e)` over a plan
from a seed of the same currency. -/
theorem plan_fold_money (m : Money) (l : List MonthlyCapacity) :
    ∀ a : Money, a.currency = m.currency →
      l.foldl (fun acc e => acc.bind fun x => x.add (m.multiply (effUnits e)))
          (some a)
        = some ⟨a.minor + m.minor * (l.map effUnits).sum, a.currency⟩ := by
  induction l with
  | nil => intro a _; simp
  | cons x xs ih =>
    intro a h
    simp only [List.foldl_cons, Option.some_bind, List.map_cons, List.sum_cons]
    have hadd : a.add (m.multiply (effUnits x))
        = some ⟨a.minor + m.minor * effUnits x, a.currency⟩ := by
      simp [Money.add, Money.multiply, h]
    rw [hadd, ih ⟨a.minor + m.minor * effUnits x, a.currency⟩ h]
    simp only [Option.some.injEq, Money.mk.injEq]
    exact ⟨by ring, trivial⟩

/-- The accumulation pattern of `unitCOSTotal`: folding currency-checked
additions of all subtotals from a seed of the same currency. -/
theorem cos_fold_money (l : List COSItem) :
    ∀ a : Money, (∀ c ∈ l, c.subtotal.currency = a.currency) →
      l.foldl (fun acc c => acc.bind fun x => x.add c.subtotal) (some a)
        = some ⟨a.minor + (l.map (fun c => c.subtotal.minor)).sum, a.currency⟩ := by
  induction l with
  | nil => intro a _; simp
  | cons x xs ih =>
    intro a h
    simp only [List.foldl_cons, Option.some_bind, List.map_cons, List.sum_cons]
    have hx : x.subtotal.currency = a.currency := h x (by simp)
    have hadd : a.add x.subtotal
        = some ⟨a.minor + x.subtotal.minor, a.currency⟩ := by
      simp [Money.add, hx.symm]
    rw [hadd, ih ⟨a.minor + x.subtotal.minor, a.currency⟩
      (fun c hc => h c (by simp [hc]))]
    simp only [Option.some.injEq, Money.mk.injEq]
    exact ⟨by ring, trivial⟩

/-- After a successful `recomputeFinance` the dirty flag is down, so a
second `recomputeFinance` is the identity. -/
theorem recomputeFinance_stable {s s1 : Subscription}
    (h : s.recomputeFinance = some s1) :
    s1.financeDirty = false ∧ s1.recomputeFinance = some s1 := by
  by_cases hd : s.financeDirty = true
  · unfold Subscription.recomputeFinance at h
    rw [if_neg (by simp [hd])] at h
    cases hr : s.computeGrossRevenue with
    | none => rw [hr] at h; simp at h
    | some gr =>
      rw [hr] at h
      cases hc : s.computeGrossCOS with
      | none => rw [hc] at h; simp at h
      | some gc =>
        rw [hc] at h
        cases hp : s.computeGrossProfit with
        | none => rw [hp] at h; simp at h
        | some gp =>
          rw [hp] at h
          simp only [Option.some_bind, Option.some.injEq] at h
          subst h
          refine ⟨rfl, ?_⟩
          unfold Subscription.recomputeFinance
          rw [if_pos (by simp)]
  · unfold Subscription.recomputeFinance at h
    rw [if_pos hd] at h
    have he : s = s1 := Option.some.inj h
    subst he
    have hdirty : s.financeDirty = false := by
      simpa using hd
    refine ⟨hdirty, ?_⟩
    unfold Subscription.recomputeFinance
    rw [if_pos (by simp [hdirty])]

/- ================================================================
   Claim C10 — applyTrial on a never-set capacity plan.
   ================================================================ -/

/-- C10: for every positive integer `months`, `applyTrial(months)` on a
subscription whose capacity plan field was never set (it is `undefined`,
as after `initialize`) throws nothing and leaves the whole state — plan,
`last_update`, dirty flag — untouched; and `applyTrial` throws exactly
when `months` is not positive.  The last conjunct grounds the
"as after initialize" reading: a successfully initialized subscription has
no capacity plan. -/
theorem claim_C10_applyTrial_no_plan (s : Subscription) (months : Int)
    (now : String) (name category : String) (type : SubscriptionType)
    (rate : SubscriptionRate) (dt sku : Option String)
    (genId genSlug ts : String) :
    (1 ≤ months → s.metadata.capacityPlan = none →
      s.applyTrial months now = (s, none))
    ∧ ((s.applyTrial months now).2.isSome ↔ months ≤ 0)
    ∧ (∀ s0, Subscription.init name type rate category dt sku genId genSlug ts
          = some s0 → s0.metadata.capacityPlan = none) := by
  refine ⟨?_, ?_, ?_⟩
  · intro h1 h2
    unfold Subscription.applyTrial
    rw [h2]
    simp only [if_neg (by omega : ¬ months ≤ 0)]
  · unfold Subscription.applyTrial
    by_cases h : months ≤ 0
    · simp [h]
    · simp only [h, if_false]
      cases s.metadata.capacityPlan <;> simp [h]
  · intro s0 h
    unfold Subscription.init at h
    by_cases hn : isBlank name
    · simp [hn] at h
    · by_cases hc : isBlank category
      · simp [hn, hc] at h
      · simp only [hn, hc, Bool.false_eq_true, if_false, Option.some.injEq] at h
        rw [← h]
        rfl

/-- C10 witness: a concrete run on `sub0` (plan never set). -/
theorem claim_C10_witness :
    1 ≤ (3 : Int) ∧ sub0.metadata.capacityPlan = none
      ∧ sub0.applyTrial 3 "2025-02-01T00:00:00.000Z" = (sub0, none) :=
  ⟨by decide, by decide,
    (claim_C10_applyTrial_no_plan sub0 3 "2025-02-01T00:00:00.000Z" "n" "c"
      SubscriptionType.recurring rate0 none none "g1" "g2" "t").1
      (by decide) (by decide)⟩

/- ================================================================
   Claim C3 — the month-key validator.
   ================================================================ -/

/-- C3 (code bug): the regex `/^\d{4}-0[1-9]|1[0-2]$/` in `isValidYYYYMM`
is missing the grouping parentheses, so the two alternatives are anchored
only at one end each.  `"12"` (not of the claimed 4-digit-year/2-digit-
month shape) passes the check, as does `"2025-019"`; consequently
`getRevenue("12")` does not throw `InvalidMonth` and instead returns zero
money.  Genuinely valid keys still pass, and `"2025-13"` is still
rejected, so the validator is complete but unsound for the claimed
pattern. -/
theorem claim_C3_validator_bug :
    isValidYYYYMM "12" = true
    ∧ isStrictYYYYMM "12" = false
    ∧ isValidYYYYMM "2025-019" = true
    ∧ isStrictYYYYMM "2025-019" = false
    ∧ isValidYYYYMM "x10" = true
    ∧ isStrictYYYYMM "x10" = false
    ∧ isStrictYYYYMM "2025-05" = true ∧ isValidYYYYMM "2025-05" = true
    ∧ isStrictYYYYMM "2025-12" = true ∧ isValidYYYYMM "2025-12" = true
    ∧ isValidYYYYMM "2025-13" = false
    ∧ sub0.getRevenue "12" = some sub0.DEFAULT_ZERO := by decide

/- ================================================================
   Claim C6 — the one-entry-per-month invariant.
   ================================================================ -/

/-- C6 counterexample: `setCapacity` accepts an input array holding two
entries for the same month without any error, so a duplicate-month plan is
reachable through the public interface. -/
theorem claim_C6_counterexample :
    (sub0.setCapacity [⟨"2025-01", 1, none⟩, ⟨"2025-01", 2, none⟩] "t1").2 = none
    ∧ (sub0.setCapacity [⟨"2025-01", 1, none⟩, ⟨"2025-01", 2, none⟩]
        "t1").1.metadata.capacityPlan
      = some [⟨"2025-01", 1, none⟩, ⟨"2025-01", 2, none⟩] := by decide

/-- C6 amended: `addCapacity` does reject an already-present month (state
unchanged, `DuplicateMonth` error) and otherwise appends exactly one entry;
`setCapacity`, however, performs no duplicate check, so the at-most-one-
entry-per-month invariant is *not* preserved by the full public
interface. -/
theorem claim_C6_amended (s : Subscription) (month : String) (units : Int)
    (adj : Option Int) (now : String) (hv : isValidYYYYMM month = true) :
    ((s.metadata.capacityPlan.getD []).any (fun e => e.month == month) = true →
      s.addCapacity month units adj now
        = (s, some "Month already exists. Use updateCapacityUnits or updateCapacityAdjustment"))
    ∧ ((s.metadata.capacityPlan.getD []).any (fun e => e.month == month) = false →
      s.addCapacity month units adj now
        = ({ s with
              metadata.capacityPlan :=
                some (s.metadata.capacityPlan.getD [] ++ [⟨month, units, adj⟩])
              last_update := now
              financeDirty := true }, none)) := by
  cases hp : s.metadata.capacityPlan with
  | none =>
    constructor
    · intro hdup
      simp at hdup
    · intro _
      simp [Subscription.addCapacity, hv, hp]
  | some p =>
    constructor
    · intro hdup
      simp only [Option.getD_some] at hdup
      have h1 : s.addCapacity month units adj now
          = ({ s with metadata.capacityPlan := some p },
             some "Month already exists. Use updateCapacityUnits or updateCapacityAdjustment") := by
        simp [Subscription.addCapacity, hv, hp, hdup]
      rw [h1, plan_update_self s hp]
    · intro hdup
      simp only [Option.getD_some] at hdup
      simp [Subscription.addCapacity, hv, hp, hdup]

/-- C6 witness: a concrete duplicate insertion attempt on `subUnsorted`. -/
theorem claim_C6_witness :
    isValidYYYYMM "2025-02" = true
    ∧ (subUnsorted.metadata.capacityPlan.getD []).any
        (fun e => e.month == "2025-02") = true
    ∧ subUnsorted.addCapacity "2025-02" 9 none "t1"
        = (subUnsorted,
           some "Month already exists. Use updateCapacityUnits or updateCapacityAdjustment") :=
  ⟨by decide, by decide,
    (claim_C6_amended subUnsorted "2025-02" 9 none "t1" (by decide)).1 (by decide)⟩

/- ================================================================
   Claim C5 — no partial mutation on validation failure.
   ================================================================ -/

/-- C5 counterexample: `updateCOS` with a valid quantity and a
mismatched-currency `unitCost` throws the currency error *after* the
quantity write, leaving the item's quantity changed from 1 to 2. -/
theorem claim_C5_counterexample :
    (subFin.updateCOS "mjksubcost-h1"
        ⟨some 2, some ⟨100, "USD"⟩, none, none⟩ "t1").2
      = some "Currency mismatch with subscription rate"
    ∧ ((subFin.updateCOS "mjksubcost-h1"
        ⟨some 2, some ⟨100, "USD"⟩, none, none⟩ "t1").1.metadata.cos.getD 0
          cosHosting).quantity = 2
    ∧ cosHosting.quantity = 1
    ∧ (subFin.updateCOS "mjksubcost-h1"
        ⟨some 2, some ⟨100, "USD"⟩, none, none⟩ "t1").1 ≠ subFin := by decide

/-- `setCOS` validates every item before committing the replacement. -/
theorem setCOS_atomic (s : Subscription) (items : List COSItem) (now : String)
    (h : (s.setCOS items now).2.isSome = true) : (s.setCOS items now).1 = s := by
  cases hv : validateCOSItems s.rate.amount.currency items with
  | none => simp [Subscription.setCOS, hv] at h
  | some e => simp [Subscription.setCOS, hv]

/-- `setCapacity` validates every entry before committing the replacement. -/
theorem setCapacity_atomic (s : Subscription) (plan : List MonthlyCapacity)
    (now : String) (h : (s.setCapacity plan now).2.isSome = true) :
    (s.setCapacity plan now).1 = s := by
  cases hv : validateCapacityEntries plan with
  | none => simp [Subscription.setCapacity, hv] at h
  | some e => simp [Subscription.setCapacity, hv]

/-- `addCapacity` validates before its push (the `??=` write that precedes
the duplicate check can only materialize an empty array, which changes
nothing observable). -/
theorem addCapacity_atomic (s : Subscription) (month : String) (units : Int)
    (adj : Option Int) (now : String)
    (h : (s.addCapacity month units adj now).2.isSome = true) :
    (s.addCapacity month units adj now).1 = s := by
  cases hv : isValidYYYYMM month with
  | false => simp [Subscription.addCapacity, hv]
  | true =>
    cases hp : s.metadata.capacityPlan with
    | none => simp [Subscription.addCapacity, hv, hp] at h
    | some p =>
      cases hd : p.any (fun e => e.month == month) with
      | false => simp [Subscription.addCapacity, hv, hp, hd] at h
      | true =>
        have h1 : (s.addCapacity month units adj now).1
            = { s with metadata.capacityPlan := some p } := by
          simp [Subscription.addCapacity, hv, hp, hd]
        rw [h1, plan_update_self s hp]

/-- `generateCapacityPlan` validates its scalar arguments, then delegates
the plan swap to `setCapacity`. -/
theorem generateCapacityPlan_atomic (s : Subscription) (months : Int)
    (amount growthRate : Rat) (startIdx : Int) (tzWest : Bool) (now : String)
    (h : (s.generateCapacityPlan months amount growthRate startIdx tzWest now).2.isSome
      = true) :
    (s.generateCapacityPlan months amount growthRate startIdx tzWest now).1 = s := by
  unfold Subscription.generateCapacityPlan at h ⊢
  by_cases h1 : months ≤ 0
  · simp [h1]
  · by_cases h2 : amount < 0
    · simp [h1, h2]
    · by_cases h3 : growthRate < 0
      · simp [h1, h2, h3]
      · simp only [h1, h2, h3, if_false] at h ⊢
        exact setCapacity_atomic s _ now h

/-- Every throwing branch of `recomputeCapacityPeriod` fires before the
plan assignment. -/
theorem recomputeCapacityPeriod_atomic (s : Subscription) (startK endK : String)
    (mode : CapacityPeriodResizeMode) (now : String)
    (h : (s.recomputeCapacityPeriod startK endK mode now).2.isSome = true) :
    (s.recomputeCapacityPeriod startK endK mode now).1 = s := by
  unfold Subscription.recomputeCapacityPeriod at h ⊢
  by_cases h1 : isValidYYYYMM startK = true ∧ isValidYYYYMM endK = true
  · by_cases h2 : s.hasCapacity = true
    · by_cases h3 : strLt endK startK = true
      · simp [h1, h2, h3]
      · simp only [h1, h2, h3, not_true_eq_false, if_false, not_false_eq_true,
          if_true, Bool.false_eq_true] at h ⊢
        cases hi : toIndex? startK with
        | none => simp [hi]
        | some i =>
          cases hj : toIndex? endK with
          | none => simp [hi, hj]
          | some j => simp [hi, hj] at h
    · simp [h1, h2]
  · simp [h1]

/-- The `updateCOS` lookup failure throws before any write. -/
theorem updateCOS_notFound (s : Subscription) (cid : String) (u : COSUpdates)
    (now : String) (h : s.metadata.cos.findIdx? (fun c => c.id == cid) = none) :
    s.updateCOS cid u now = (s, some "COS item not found") := by
  unfold Subscription.updateCOS
  rw [h]

/-- The `updateCOS` quantity validation throws before the quantity write. -/
theorem updateCOS_badQuantity (s : Subscription) (cid : String) (u : COSUpdates)
    (now : String) (idx : Nat) (q : Int)
    (hfind : s.metadata.cos.findIdx? (fun c => c.id == cid) = some idx)
    (hq : u.quantity = some q) (hq0 : q ≤ 0) :
    s.updateCOS cid u now = (s, some "Quantity must be positive") := by
  unfold Subscription.updateCOS
  rw [hfind, hq]
  simp [hq0]

/-- `addCOS` runs all three validations before its push. -/
theorem addCOS_atomic (s : Subscription) (name : String) (unitCost : Money)
    (quantity : Int) (unit : Option String) (genId now : String)
    (h : (s.addCOS name unitCost quantity unit genId now).2.isSome = true) :
    (s.addCOS name unitCost quantity unit genId now).1 = s := by
  unfold Subscription.addCOS at h ⊢
  by_cases h1 : isBlank name = true
  · simp [h1]
  · by_cases h2 : quantity ≤ 0
    · simp [h1, h2]
    · by_cases h3 : unitCost.currency ≠ s.rate.amount.currency
      · simp [h1, h2, h3]
      · simp [h1, h2, h3] at h

/-- `pushCOS` runs all four validations before its push (its subtotal
rewrite touches only the argument object). -/
theorem pushCOS_atomic (s : Subscription) (item : COSItem) (now : String)
    (h : (s.pushCOS item now).2.isSome = true) :
    (s.pushCOS item now).1 = s := by
  unfold Subscription.pushCOS at h ⊢
  by_cases h1 : item.id = ""
  · simp [h1]
  · by_cases h2 : isBlank item.item = true
    · simp [h1, h2]
    · by_cases h3 : item.quantity ≤ 0
      · simp [h1, h2, h3]
      · by_cases h4 : item.unitCost.currency ≠ s.rate.amount.currency
        · simp [h1, h2, h3, h4]
        · simp [h1, h2, h3, h4] at h

/-- `removeCOS` validates the lookup before its splice. -/
theorem removeCOS_atomic (s : Subscription) (cid : String) (now : String)
    (h : (s.removeCOS cid now).2.isSome = true) :
    (s.removeCOS cid now).1 = s := by
  unfold Subscription.removeCOS at h ⊢
  cases hf : s.metadata.cos.findIdx? (fun c => c.id == cid) with
  | none => simp [hf]
  | some idx => simp [hf] at h

/-- `updateCapacityUnits` validates month format and lookup before its
write. -/
theorem updateCapacityUnits_atomic (s : Subscription) (month : String)
    (units : Int) (now : String)
    (h : (s.updateCapacityUnits month units now).2.isSome = true) :
    (s.updateCapacityUnits month units now).1 = s := by
  unfold Subscription.updateCapacityUnits at h ⊢
  by_cases hv : isValidYYYYMM month = true
  · cases hf : (s.metadata.capacityPlan.getD []).findIdx?
        (fun e => e.month == month) with
    | none => simp [hv, hf]
    | some idx => simp [hv, hf] at h
  · simp [hv]

/-- `updateCapacityAdjustment` validates month format and lookup before its
write. -/
theorem updateCapacityAdjustment_atomic (s : Subscription) (month : String)
    (adjustment : Option Int) (now : String)
    (h : (s.updateCapacityAdjustment month adjustment now).2.isSome = true) :
    (s.updateCapacityAdjustment month adjustment now).1 = s := by
  unfold Subscription.updateCapacityAdjustment at h ⊢
  by_cases hv : isValidYYYYMM month = true
  · cases hf : (s.metadata.capacityPlan.getD []).findIdx?
        (fun e => e.month == month) with
    | none => simp [hv, hf]
    | some idx => simp [hv, hf] at h
  · simp [hv]

/-- `removeCapacity` validates month format and lookup before its splice. -/
theorem removeCapacity_atomic (s : Subscription) (month : String)
    (now : String) (h : (s.removeCapacity month now).2.isSome = true) :
    (s.removeCapacity month now).1 = s := by
  unfold Subscription.removeCapacity at h ⊢
  by_cases hv : isValidYYYYMM month = true
  · cases hp : s.metadata.capacityPlan with
    | none => simp [hv, hp]
    | some plan =>
      cases hf : plan.findIdx? (fun e => e.month == month) with
      | none => simp [hv, hp, hf]
      | some idx => simp [hv, hp, hf] at h
  · simp [hv]

/-- `normalizeCapacityUnits` validates the amount and the plan before its
writes (the one-entry case returns unchanged and throws nothing). -/
theorem normalizeCapacityUnits_atomic (s : Subscription) (amount : Int)
    (now : String)
    (h : (s.normalizeCapacityUnits amount now).2.isSome = true) :
    (s.normalizeCapacityUnits amount now).1 = s := by
  unfold Subscription.normalizeCapacityUnits at h ⊢
  by_cases h1 : amount < 0
  · simp [h1]
  · cases hp : s.metadata.capacityPlan with
    | none => simp [h1, hp]
    | some supply =>
      by_cases h2 : supply.length = 0
      · simp [h1, hp, h2]
      · by_cases h3 : supply.length = 1
        · simp [h1, hp, h2, h3] at h
        · simp [h1, hp, h2, h3] at h

/-- `setRateAmount` validates before both rate writes. -/
theorem setRateAmount_atomic (s : Subscription) (amount : Rat) (now : String)
    (h : (s.setRateAmount amount now).2.isSome = true) :
    (s.setRateAmount amount now).1 = s := by
  unfold Subscription.setRateAmount at h ⊢
  by_cases hm : amount ≤ 0
  · simp [hm]
  · simp [hm] at h

/-- `setDescription` validates both strings before either write. -/
theorem setDescription_atomic (s : Subscription) (html text now : String)
    (h : (s.setDescription html text now).2.isSome = true) :
    (s.setDescription html text now).1 = s := by
  unfold Subscription.setDescription at h ⊢
  by_cases hh : isBlank html = true
  · simp [hh]
  · by_cases ht : isBlank text = true
    · simp [hh, ht]
    · simp [hh, ht] at h

/-- `setDescriptionText` validates before its write. -/
theorem setDescriptionText_atomic (s : Subscription) (text now : String)
    (h : (s.setDescriptionText text now).2.isSome = true) :
    (s.setDescriptionText text now).1 = s := by
  unfold Subscription.setDescriptionText at h ⊢
  by_cases ht : isBlank text = true
  · simp [ht]
  · simp [ht] at h

/-- `setDescriptionHTML` validates before its write. -/
theorem setDescriptionHTML_atomic (s : Subscription) (html now : String)
    (h : (s.setDescriptionHTML html now).2.isSome = true) :
    (s.setDescriptionHTML html now).1 = s := by
  unfold Subscription.setDescriptionHTML at h ⊢
  by_cases hh : isBlank html = true
  · simp [hh]
  · simp [hh] at h

/-- `applyTrial` validates its months argument before any write. -/
theorem applyTrial_atomic (s : Subscription) (months : Int) (now : String)
    (h : (s.applyTrial months now).2.isSome = true) :
    (s.applyTrial months now).1 = s := by
  unfold Subscription.applyTrial at h ⊢
  by_cases hm : months ≤ 0
  · simp [hm]
  · simp only [hm, if_false] at h ⊢
    cases hp : s.metadata.capacityPlan with
    | none => rw [hp] at h
    | some plan => rw [hp] at h; simp at h

/-- C5 amended: every mutator of the subscription validates before
committing its writes — on any input where it throws a validation error the
entire state (COS list, capacity plan, rate, timestamps, dirty flag) is
unchanged — with the single exception of `updateCOS`'s unit-cost currency
check: `updateCOS` is atomic for a missing item and for an invalid
quantity, but it commits a valid quantity *before* checking the unit-cost
currency, so a valid quantity together with a different-currency
`unitCost` throws with the targeted item's quantity already updated (see
the counterexample).  The clauses below cover every throwing mutator; the
remaining mutators (`setName`, `setRate`, `setRateUnit`, `setCategory`,
`setDescriptionSEO`, `setType` on a well-typed enum value,
`clearCostBreakdown`, `clearCapacity`) have no validation that can fail. -/
theorem claim_C5_amended (s : Subscription) (items : List COSItem)
    (plan : List MonthlyCapacity) (month : String) (units : Int)
    (adj : Option Int) (months : Int) (amount growthRate : Rat)
    (startIdx : Int) (tzWest : Bool) (startK endK : String)
    (mode : CapacityPeriodResizeMode) (cid : String) (u : COSUpdates)
    (name : String) (unitCost : Money) (quantity : Int)
    (unit : Option String) (genId : String) (item : COSItem)
    (amountN : Int) (html text : String) (now : String) :
    ((s.setCOS items now).2.isSome = true → (s.setCOS items now).1 = s)
    ∧ ((s.setCapacity plan now).2.isSome = true → (s.setCapacity plan now).1 = s)
    ∧ ((s.addCapacity month units adj now).2.isSome = true →
        (s.addCapacity month units adj now).1 = s)
    ∧ ((s.generateCapacityPlan months amount growthRate startIdx tzWest
          now).2.isSome = true →
        (s.generateCapacityPlan months amount growthRate startIdx tzWest now).1 = s)
    ∧ ((s.recomputeCapacityPeriod startK endK mode now).2.isSome = true →
        (s.recomputeCapacityPeriod startK endK mode now).1 = s)
    ∧ ((s.addCOS name unitCost quantity unit genId now).2.isSome = true →
        (s.addCOS name unitCost quantity unit genId now).1 = s)
    ∧ ((s.pushCOS item now).2.isSome = true → (s.pushCOS item now).1 = s)
    ∧ ((s.removeCOS cid now).2.isSome = true → (s.removeCOS cid now).1 = s)
    ∧ ((s.updateCapacityUnits month units now).2.isSome = true →
        (s.updateCapacityUnits month units now).1 = s)
    ∧ ((s.updateCapacityAdjustment month adj now).2.isSome = true →
        (s.updateCapacityAdjustment month adj now).1 = s)
    ∧ ((s.removeCapacity month now).2.isSome = true →
        (s.removeCapacity month now).1 = s)
    ∧ ((s.normalizeCapacityUnits amountN now).2.isSome = true →
        (s.normalizeCapacityUnits amountN now).1 = s)
    ∧ ((s.setRateAmount amount now).2.isSome = true →
        (s.setRateAmount amount now).1 = s)
    ∧ ((s.setDescription html text now).2.isSome = true →
        (s.setDescription html text now).1 = s)
    ∧ ((s.setDescriptionText text now).2.isSome = true →
        (s.setDescriptionText text now).1 = s)
    ∧ ((s.setDescriptionHTML html now).2.isSome = true →
        (s.setDescriptionHTML html now).1 = s)
    ∧ ((s.applyTrial months now).2.isSome = true → (s.applyTrial months now).1 = s)
    ∧ (s.metadata.cos.findIdx? (fun c => c.id == cid) = none →
        s.updateCOS cid u now = (s, some "COS item not found"))
    ∧ (∀ idx q, s.metadata.cos.findIdx? (fun c => c.id == cid) = some idx →
        u.quantity = some q → q ≤ 0 →
        s.updateCOS cid u now = (s, some "Quantity must be positive")) :=
  ⟨setCOS_atomic s items now,
   setCapacity_atomic s plan now,
   addCapacity_atomic s month units adj now,
   generateCapacityPlan_atomic s months amount growthRate startIdx tzWest now,
   recomputeCapacityPeriod_atomic s startK endK mode now,
   addCOS_atomic s name unitCost quantity unit genId now,
   pushCOS_atomic s item now,
   removeCOS_atomic s cid now,
   updateCapacityUnits_atomic s month units now,
   updateCapacityAdjustment_atomic s month adj now,
   removeCapacity_atomic s month now,
   normalizeCapacityUnits_atomic s amountN now,
   setRateAmount_atomic s amount now,
   setDescription_atomic s html text now,
   setDescriptionText_atomic s text now,
   setDescriptionHTML_atomic s html now,
   applyTrial_atomic s months now,
   updateCOS_notFound s cid u now,
   fun idx q hfind hq hq0 => updateCOS_badQuantity s cid u now idx q hfind hq hq0⟩

/-- C5 witness: a concrete failed `setCapacity` (malformed month) leaves
`sub0` unchanged. -/
theorem claim_C5_witness :
    (sub0.setCapacity [⟨"bad", 1, none⟩] "t1").2.isSome = true
    ∧ (sub0.setCapacity [⟨"bad", 1, none⟩] "t1").1 = sub0 :=
  ⟨by decide,
    (claim_C5_amended sub0 [] [⟨"bad", 1, none⟩] "m" 0 none 1 0 0 0 false
      "a" "b" CapacityPeriodResizeMode.default "c" ⟨none, none, none, none⟩
      "n" ⟨1, "PHP"⟩ 1 none "g" cosHosting 0 "h" "x" "t1").2.1 (by decide)⟩

/- ================================================================
   Claim C4 — the gross aggregate formulas.
   ================================================================ -/

/-- C4: with a non-empty currency code and all COS subtotals in the rate's
currency (both invariants of every reachable state), `computeGrossRevenue`
is Σ `rateAmount × (capacity + (adjustment ?? 0))` accumulated from the
zero seed in the rate's currency, `computeGrossCOS` is
`(Σ subtotal) × Σ (capacity + (adjustment ?? 0))`, and `computeGrossProfit`
is their difference. -/
theorem claim_C4_gross_formulas (s : Subscription)
    (hcur : s.rate.amount.currency ≠ "")
    (hcos : ∀ c ∈ s.metadata.cos, c.subtotal.currency = s.rate.amount.currency) :
    s.computeGrossRevenue
      = some ⟨s.rate.amount.minor * ((s.metadata.capacityPlan.getD []).map effUnits).sum,
              s.rate.amount.currency⟩
    ∧ s.computeGrossCOS
      = some ⟨(s.metadata.cos.map (fun c => c.subtotal.minor)).sum
                * ((s.metadata.capacityPlan.getD []).map effUnits).sum,
              s.rate.amount.currency⟩
    ∧ s.computeGrossProfit
      = some ⟨s.rate.amount.minor * ((s.metadata.capacityPlan.getD []).map effUnits).sum
                - (s.metadata.cos.map (fun c => c.subtotal.minor)).sum
                  * ((s.metadata.capacityPlan.getD []).map effUnits).sum,
              s.rate.amount.currency⟩ := by
  have hz : s.DEFAULT_ZERO = ⟨0, s.rate.amount.currency⟩ := by
    unfold Subscription.DEFAULT_ZERO Money.fromMinor
    rw [if_neg hcur]
  have hrev : s.computeGrossRevenue
      = some ⟨s.rate.amount.minor * ((s.metadata.capacityPlan.getD []).map effUnits).sum,
              s.rate.amount.currency⟩ := by
    unfold Subscription.computeGrossRevenue
    rw [hz, plan_fold_money s.rate.amount _ ⟨0, s.rate.amount.currency⟩ rfl]
    simp
  have hunit : s.unitCOSTotal
      = some ⟨(s.metadata.cos.map (fun c => c.subtotal.minor)).sum,
              s.rate.amount.currency⟩ := by
    unfold Subscription.unitCOSTotal
    rw [hz, cos_fold_money s.metadata.cos ⟨0, s.rate.amount.currency⟩
      (fun c hc => hcos c hc)]
    simp
  have hcosTot : s.computeGrossCOS
      = some ⟨(s.metadata.cos.map (fun c => c.subtotal.minor)).sum
                * ((s.metadata.capacityPlan.getD []).map effUnits).sum,
              s.rate.amount.currency⟩ := by
    unfold Subscription.computeGrossCOS
    rw [hunit]
    simp only [Option.some_bind]
    rw [hz, plan_fold_money
      ⟨(s.metadata.cos.map (fun c => c.subtotal.minor)).sum, s.rate.amount.currency⟩
      _ ⟨0, s.rate.amount.currency⟩ rfl]
    simp
  refine ⟨hrev, hcosTot, ?_⟩
  unfold Subscription.computeGrossProfit
  rw [hrev, hcosTot]
  simp [Money.subtract]

/-- C4 witness: the formulas evaluated on the concrete `subFin`
(rate 2900 minor, one 30000-minor COS item, plan totalling 6 effective
units). -/
theorem claim_C4_witness :
    subFin.rate.amount.currency ≠ ""
    ∧ (∀ c ∈ subFin.metadata.cos, c.subtotal.currency = subFin.rate.amount.currency)
    ∧ subFin.computeGrossRevenue
        = some ⟨subFin.rate.amount.minor
                  * ((subFin.metadata.capacityPlan.getD []).map effUnits).sum,
                subFin.rate.amount.currency⟩ :=
  ⟨by decide, by decide,
    (claim_C4_gross_formulas subFin (by decide) (by decide)).1⟩

/- ================================================================
   Claim C7 — idempotent cached accessors, pure recomputation.
   ================================================================ -/

/-- A cached finance getter (recompute-if-dirty then project) returns the
same value and state when called again on the state it produced. -/
theorem getter_idem (proj : Subscription → Money) (s s1 : Subscription) (v : Money)
    (h : s.recomputeFinance.map (fun x => (proj x, x)) = some (v, s1)) :
    s1.recomputeFinance.map (fun x => (proj x, x)) = some (v, s1) := by
  rw [Option.map_eq_some'] at h
  obtain ⟨s2, hs2, heq⟩ := h
  have hpair := Prod.mk.injEq (proj s2) s2 v s1 ▸ heq
  obtain ⟨hv, hs⟩ := Prod.mk.inj heq
  subst hs
  rw [(recomputeFinance_stable hs2).2]
  simp [hv]

/-- `computeGrossRevenue` reads only the rate and the capacity plan. -/
theorem computeGrossRevenue_congr {s t : Subscription} (hr : s.rate = t.rate)
    (hp : s.metadata.capacityPlan = t.metadata.capacityPlan) :
    s.computeGrossRevenue = t.computeGrossRevenue := by
  unfold Subscription.computeGrossRevenue Subscription.DEFAULT_ZERO
  rw [hr, hp]

/-- `unitCOSTotal` reads only the rate (for the zero seed) and the COS
list. -/
theorem unitCOSTotal_congr {s t : Subscription} (hr : s.rate = t.rate)
    (hc : s.metadata.cos = t.metadata.cos) :
    s.unitCOSTotal = t.unitCOSTotal := by
  unfold Subscription.unitCOSTotal Subscription.DEFAULT_ZERO
  rw [hr, hc]

/-- `computeGrossCOS` reads only the rate, the COS list and the plan. -/
theorem computeGrossCOS_congr {s t : Subscription} (hr : s.rate = t.rate)
    (hc : s.metadata.cos = t.metadata.cos)
    (hp : s.metadata.capacityPlan = t.metadata.capacityPlan) :
    s.computeGrossCOS = t.computeGrossCOS := by
  unfold Subscription.computeGrossCOS Subscription.DEFAULT_ZERO
  rw [unitCOSTotal_congr hr hc, hr, hp]

/-- `computeGrossProfit` reads only the rate, the COS list and the plan. -/
theorem computeGrossProfit_congr {s t : Subscription} (hr : s.rate = t.rate)
    (hc : s.metadata.cos = t.metadata.cos)
    (hp : s.metadata.capacityPlan = t.metadata.capacityPlan) :
    s.computeGrossProfit = t.computeGrossProfit := by
  unfold Subscription.computeGrossProfit
  rw [computeGrossRevenue_congr hr hp, computeGrossCOS_congr hr hc hp]

/-- C7: each cached finance accessor called twice with no intervening
mutation returns the same monetary value and the same state both times,
and the recomputation is a pure function of (rate, COS list, capacity
plan): two dirty states agreeing on those three fields recompute
identical snapshot content. -/
theorem claim_C7_idempotent_cache (s t s1 : Subscription) (v : Money) :
    (s.grossRevenue = some (v, s1) → s1.grossRevenue = some (v, s1))
    ∧ (s.grossCost = some (v, s1) → s1.grossCost = some (v, s1))
    ∧ (s.grossProfit = some (v, s1) → s1.grossProfit = some (v, s1))
    ∧ (s.netRevenue = some (v, s1) → s1.netRevenue = some (v, s1))
    ∧ (s.netProfit = some (v, s1) → s1.netProfit = some (v, s1))
    ∧ (s.rate = t.rate → s.metadata.cos = t.metadata.cos →
        s.metadata.capacityPlan = t.metadata.capacityPlan →
        s.financeDirty = true → t.financeDirty = true →
        s.recomputeFinance.map (fun x => x.metadata.finance)
          = t.recomputeFinance.map (fun x => x.metadata.finance)) := by
  refine ⟨?_, ?_, ?_, ?_, ?_, ?_⟩
  · exact getter_idem (fun x => x.metadata.finance.revenue.gross.value) s s1 v
  · exact getter_idem (fun x => x.metadata.finance.cos.gross.value) s s1 v
  · exact getter_idem (fun x => x.metadata.finance.profit.gross.value) s s1 v
  · exact getter_idem (fun x => x.metadata.finance.revenue.net.value) s s1 v
  · exact getter_idem (fun x => x.metadata.finance.profit.net.value) s s1 v
  · intro hr hc hp hds hdt
    unfold Subscription.recomputeFinance
    rw [if_neg (by simp [hds]), if_neg (by simp [hdt])]
    rw [computeGrossRevenue_congr hr hp, computeGrossCOS_congr hr hc hp,
      computeGrossProfit_congr hr hc hp]
    cases t.computeGrossRevenue with
    | none => simp
    | some gr =>
      cases t.computeGrossCOS with
      | none => simp
      | some gc =>
        cases t.computeGrossProfit with
        | none => simp
        | some gp => simp

/-- C7 witness: two successive `grossRevenue` reads on `sub0`. -/
theorem claim_C7_witness :
    sub0.grossRevenue = some (⟨0, "PHP"⟩, sub0Recomputed)
    ∧ sub0Recomputed.grossRevenue = some (⟨0, "PHP"⟩, sub0Recomputed) :=
  ⟨by decide,
    (claim_C7_idempotent_cache sub0 sub0 sub0Recomputed ⟨0, "PHP"⟩).1 (by decide)⟩

/- ================================================================
   Claim C9 — JSON round trip.
   ================================================================ -/

/-- C9: `parseFromJSON(toJSON(x))` reconstructs a subscription with the
same id, slug, rate, COS item list, capacity plan, and finance snapshot.
The hypotheses are invariants of every constructed subscription: non-empty
id, slug and timestamp (the constructor substitutes generated values for
empty ones, `parseFromJSON` rejects empty ones) and the rate mirrored into
the metadata (the constructor sets `this.rate = metadata.rate`; every rate
mutator writes both). -/
theorem claim_C9_roundtrip (x : Subscription) (genId genSlug : String)
    (hid : x.id ≠ "") (hslug : x.slug ≠ "") (hts : x.timestamp ≠ "")
    (hrate : x.rate = x.metadata.rate) :
    ∃ y, parseFromJSON x.toJSON genId genSlug = some y
      ∧ y.id = x.id ∧ y.slug = x.slug ∧ y.rate = x.rate
      ∧ y.metadata.cos = x.metadata.cos
      ∧ y.metadata.capacityPlan = x.metadata.capacityPlan
      ∧ y.metadata.finance = x.metadata.finance := by
  have hy : parseFromJSON x.toJSON genId genSlug
      = some (mkSubscription (some x.id) (some x.slug) x.name x.metadata
          x.settings x.timestamp x.last_update genId genSlug) := by
    unfold parseFromJSON Subscription.toJSON
    simp [hid, hts]
  refine ⟨_, hy, ?_, ?_, ?_, ?_, ?_, ?_⟩
  · unfold mkSubscription
    simp [hid]
  · unfold mkSubscription
    simp [hslug]
  · unfold mkSubscription
    simpa using hrate.symm
  · rfl
  · rfl
  · rfl

/-- C9 witness: the round trip on the concrete `subFin`. -/
theorem claim_C9_witness :
    subFin.id ≠ "" ∧ subFin.slug ≠ "" ∧ subFin.timestamp ≠ ""
    ∧ subFin.rate = subFin.metadata.rate
    ∧ ∃ y, parseFromJSON subFin.toJSON "g1" "g2" = some y
        ∧ y.id = subFin.id ∧ y.slug = subFin.slug ∧ y.rate = subFin.rate
        ∧ y.metadata.cos = subFin.metadata.cos
        ∧ y.metadata.capacityPlan = subFin.metadata.capacityPlan
        ∧ y.metadata.finance = subFin.metadata.finance :=
  ⟨by decide, by decide, by decide, by decide,
    claim_C9_roundtrip subFin "g1" "g2" (by decide) (by decide) (by decide)
      (by decide)⟩

/- ================================================================
   Claims C1 and C2 — resizePeriod.
   ================================================================ -/

/-- When both month keys are strict and every guard passes,
`recomputeCapacityPeriod` swaps in exactly `recomputePlan` and touches
nothing else. -/
theorem recompute_success (s : Subscription) (startK endK : String)
    (mode : CapacityPeriodResizeMode) (now : String) (i j : Int)
    (hv : isValidYYYYMM startK = true) (hve : isValidYYYYMM endK = true)
    (hcap : s.hasCapacity = true) (hlt : strLt endK startK = false)
    (hi : toIndex? startK = some i) (hj : toIndex? endK = some j) :
    s.recomputeCapacityPeriod startK endK mode now
      = ({ s with
            metadata.capacityPlan :=
              some (recomputePlan (s.metadata.capacityPlan.getD [])
                s.totalCapacity i j mode)
            last_update := now
            financeDirty := true }, none) := by
  unfold Subscription.recomputeCapacityPeriod
  rw [if_neg (by simp [hv, hve]), if_neg (by simp [hcap]),
    if_neg (by simp [hlt]), hi, hj]

/-- C1 counterexample: a plan with total effective capacity −5 (capacity 0,
adjustment −5 — reachable via `setCapacity` or `updateCapacityAdjustment`)
redistributed over 2025-01..2025-03 yields capacities [−2, −2, −2]: the
JavaScript `%` is negative, so no remainder is distributed and the new
total −6 differs from the old total −5. -/
theorem claim_C1_counterexample :
    subNegTotal.totalCapacity = -5
    ∧ (subNegTotal.recomputeCapacityPeriod "2025-01" "2025-03"
        CapacityPeriodResizeMode.distribute "t1").2 = none
    ∧ (((subNegTotal.recomputeCapacityPeriod "2025-01" "2025-03"
        CapacityPeriodResizeMode.distribute "t1").1.metadata.capacityPlan.getD
          []).map (fun e => e.capacity)) = [-2, -2, -2]
    ∧ ¬ ((((subNegTotal.recomputeCapacityPeriod "2025-01" "2025-03"
        CapacityPeriodResizeMode.distribute "t1").1.metadata.capacityPlan.getD
          []).map (fun e => e.capacity)).sum = subNegTotal.totalCapacity) := by
  decide

/-- C1 amended: restricted to plans whose total effective capacity is
non-negative (for a negative total the JavaScript `%` hands out no extras
and the sum shrinks — see the counterexample), `DISTRIBUTE` replaces the
plan with `monthsInPeriod(start, end) = j − i + 1` entries at consecutive
months from `start`; entry `k` holds `⌊total / newLength⌋` plus one extra
unit exactly when `k < total mod newLength`, carries no adjustment, and
the new capacities sum back to the old total. -/
theorem claim_C1_distribute (s : Subscription) (startK endK now : String)
    (i j : Int)
    (hv : isValidYYYYMM startK = true) (hve : isValidYYYYMM endK = true)
    (hcap : s.hasCapacity = true) (hlt : strLt endK startK = false)
    (hi : toIndex? startK = some i) (hj : toIndex? endK = some j)
    (hij : i ≤ j) (htot : 0 ≤ s.totalCapacity) :
    ∃ newPlan,
      s.recomputeCapacityPeriod startK endK CapacityPeriodResizeMode.distribute now
        = ({ s with metadata.capacityPlan := some newPlan
                    last_update := now
                    financeDirty := true }, none)
      ∧ newPlan.length = (j - i + 1).toNat
      ∧ (∀ k, k < (j - i + 1).toNat →
          newPlan.getD k ⟨"", 0, none⟩
            = ⟨ofIndex (i + (k : Int)),
               Int.fdiv s.totalCapacity (j - i + 1)
                 + (if (k : Int) < Int.emod s.totalCapacity (j - i + 1)
                    then 1 else 0),
               none⟩)
      ∧ (newPlan.map (fun e => e.capacity)).sum = s.totalCapacity := by
  have hd : (0 : Int) < j - i + 1 := by omega
  have hmod : Int.tmod s.totalCapacity (j - i + 1)
      = Int.emod s.totalCapacity (j - i + 1) :=
    Int.tmod_eq_emod htot (by omega)
  refine ⟨_, recompute_success s startK endK CapacityPeriodResizeMode.distribute
    now i j hv hve hcap hlt hi hj, ?_, ?_, ?_⟩
  · simp [recomputePlan]
  · intro k hk
    unfold recomputePlan
    simp only []
    rw [getD_map_range _ _ hk]
    rw [hmod]
  · unfold recomputePlan
    simp only [List.map_map]
    have hcomp :
        ((fun e => e.capacity) ∘ fun (k : Nat) =>
          (⟨ofIndex (i + k),
            Int.fdiv s.totalCapacity (j - i + 1)
              + (if (k : Int) < Int.tmod s.totalCapacity (j - i + 1)
                 then 1 else 0),
            none⟩ : MonthlyCapacity))
        = fun (k : Nat) =>
            Int.fdiv s.totalCapacity (j - i + 1)
              + (if (k : Int) < Int.tmod s.totalCapacity (j - i + 1)
                 then 1 else 0) := rfl
    rw [hcomp, sum_base_indicator _ _
      (Int.tmod_nonneg _ htot) (j - i + 1).toNat]
    have hr0 : 0 ≤ Int.emod s.totalCapacity (j - i + 1) :=
      Int.emod_nonneg _ (by omega)
    have hrlt : Int.emod s.totalCapacity (j - i + 1) < j - i + 1 :=
      Int.emod_lt_of_pos _ hd
    have hn : (((j - i + 1).toNat : Int)) = j - i + 1 :=
      Int.toNat_of_nonneg (by omega)
    rw [hmod, hn]
    have hdiv : Int.fdiv s.totalCapacity (j - i + 1)
        = Int.ediv s.totalCapacity (j - i + 1) :=
      Int.fdiv_eq_ediv _ (by omega)
    have hid : (j - i + 1) * Int.ediv s.totalCapacity (j - i + 1)
        + Int.emod s.totalCapacity (j - i + 1) = s.totalCapacity :=
      Int.ediv_add_emod _ _
    rw [hdiv]
    omega

/-- C1 witness: redistribution of `subFin` (total 6) over three months. -/
theorem claim_C1_witness :
    subFin.hasCapacity = true ∧ 0 ≤ subFin.totalCapacity
    ∧ ∃ newPlan,
        subFin.recomputeCapacityPeriod "2025-01" "2025-03"
            CapacityPeriodResizeMode.distribute "t1"
          = ({ subFin with
                metadata.capacityPlan := some newPlan
                last_update := "t1"
                financeDirty := true }, none)
        ∧ newPlan.length = ((24302 : Int) - 24300 + 1).toNat
        ∧ (∀ k, k < ((24302 : Int) - 24300 + 1).toNat →
            newPlan.getD k ⟨"", 0, none⟩
              = ⟨ofIndex (24300 + (k : Int)),
                 Int.fdiv subFin.totalCapacity ((24302 : Int) - 24300 + 1)
                   + (if (k : Int) < Int.emod subFin.totalCapacity
                        ((24302 : Int) - 24300 + 1) then 1 else 0),
                 none⟩)
        ∧ (newPlan.map (fun e => e.capacity)).sum = subFin.totalCapacity :=
  ⟨by decide, by decide,
    claim_C1_distribute subFin "2025-01" "2025-03" "t1" 24300 24302
      (by decide) (by decide) (by decide) (by decide) (by decide) (by decide)
      (by decide) (by decide)⟩

/-- C2 counterexample: the `DEFAULT` resize copies the *stored* plan
positionally without sorting it.  `subUnsorted` stores
[2025-02 ↦ 5, 2025-01 ↦ 7]; resizing to 2025-03..2025-04 yields capacities
[5, 7], whereas the claim's month-ascending-sorted copy predicts [7, 5]. -/
theorem claim_C2_counterexample :
    (subUnsorted.recomputeCapacityPeriod "2025-03" "2025-04"
        CapacityPeriodResizeMode.default "t1").2 = none
    ∧ (((subUnsorted.recomputeCapacityPeriod "2025-03" "2025-04"
        CapacityPeriodResizeMode.default "t1").1.metadata.capacityPlan.getD
          []).map (fun e => e.capacity)) = [5, 7]
    ∧ ((sortByMonth (subUnsorted.metadata.capacityPlan.getD [])).map
        (fun e => e.capacity)) = [7, 5]
    ∧ ¬ (((subUnsorted.recomputeCapacityPeriod "2025-03" "2025-04"
          CapacityPeriodResizeMode.default "t1").1.metadata.capacityPlan.getD
            []).getD 0 ⟨"", 0, none⟩).capacity
        = ((sortByMonth (subUnsorted.metadata.capacityPlan.getD [])).getD 0
            ⟨"", 0, none⟩).capacity := by
  decide

/-- C2 amended: with "sorted by month ascending" corrected to "in storage
order", `DEFAULT` replaces the plan with `j − i + 1` entries at consecutive
months from `start`, where entry `k` carries the capacity and adjustment of
the `k`-th *stored* entry when `k` is below the old length and of the last
stored entry otherwise; in particular a shorter range truncates the stored
plan with the retained entries' capacity/adjustment values unaltered. -/
theorem claim_C2_default (s : Subscription) (startK endK now : String)
    (i j : Int)
    (hv : isValidYYYYMM startK = true) (hve : isValidYYYYMM endK = true)
    (hcap : s.hasCapacity = true) (hlt : strLt endK startK = false)
    (hi : toIndex? startK = some i) (hj : toIndex? endK = some j)
    (_hij : i ≤ j) :
    ∃ newPlan,
      s.recomputeCapacityPeriod startK endK CapacityPeriodResizeMode.default now
        = ({ s with metadata.capacityPlan := some newPlan
                    last_update := now
                    financeDirty := true }, none)
      ∧ newPlan.length = (j - i + 1).toNat
      ∧ (∀ k, k < (j - i + 1).toNat →
          newPlan.getD k ⟨"", 0, none⟩
            = { month := ofIndex (i + (k : Int))
                capacity :=
                  ((if k < (s.metadata.capacityPlan.getD []).length then
                      (s.metadata.capacityPlan.getD []).getD k ⟨"", 0, none⟩
                    else
                      (s.metadata.capacityPlan.getD []).getD
                        ((s.metadata.capacityPlan.getD []).length - 1)
                        ⟨"", 0, none⟩)).capacity
                adjustment :=
                  ((if k < (s.metadata.capacityPlan.getD []).length then
                      (s.metadata.capacityPlan.getD []).getD k ⟨"", 0, none⟩
                    else
                      (s.metadata.capacityPlan.getD []).getD
                        ((s.metadata.capacityPlan.getD []).length - 1)
                        ⟨"", 0, none⟩)).adjustment }) := by
  refine ⟨_, recompute_success s startK endK CapacityPeriodResizeMode.default
    now i j hv hve hcap hlt hi hj, ?_, ?_⟩
  · simp [recomputePlan]
  · intro k hk
    unfold recomputePlan
    simp only []
    rw [getD_map_range _ _ hk]

/-- C2 witness: resizing `subUnsorted` to the one-month range 2025-03
(truncation: the retained entry keeps capacity 5 and no adjustment). -/
theorem claim_C2_witness :
    subUnsorted.hasCapacity = true
    ∧ ∃ newPlan,
        subUnsorted.recomputeCapacityPeriod "2025-03" "2025-03"
            CapacityPeriodResizeMode.default "t1"
          = ({ subUnsorted with
                metadata.capacityPlan := some newPlan
                last_update := "t1"
                financeDirty := true }, none)
        ∧ newPlan.length = ((24302 : Int) - 24302 + 1).toNat
        ∧ (∀ k, k < ((24302 : Int) - 24302 + 1).toNat →
            newPlan.getD k ⟨"", 0, none⟩
              = { month := ofIndex (24302 + (k : Int))
                  capacity :=
                    ((if k < (subUnsorted.metadata.capacityPlan.getD []).length
                      then (subUnsorted.metadata.capacityPlan.getD []).getD k
                        ⟨"", 0, none⟩
                      else (subUnsorted.metadata.capacityPlan.getD []).getD
                        ((subUnsorted.metadata.capacityPlan.getD []).length - 1)
                        ⟨"", 0, none⟩)).capacity
                  adjustment :=
                    ((if k < (subUnsorted.metadata.capacityPlan.getD []).length
                      then (subUnsorted.metadata.capacityPlan.getD []).getD k
                        ⟨"", 0, none⟩
                      else (subUnsorted.metadata.capacityPlan.getD []).getD
                        ((subUnsorted.metadata.capacityPlan.getD []).length - 1)
                        ⟨"", 0, none⟩)).adjustment }) :=
  ⟨by decide,
    claim_C2_default subUnsorted "2025-03" "2025-03" "t1" 24302 24302
      (by decide) (by decide) (by decide) (by decide) (by decide) (by decide)
      (by decide)⟩

/- ================================================================
   Claim C8 — generateCapacityPlan.
   ================================================================ -/

/-- The digit-rendering fuel is irrelevant once sufficient. -/
theorem natDigitsAux_irrel (n : Nat) :
    ∀ f1 f2 : Nat, n < f1 → n < f2 → natDigitsAux f1 n = natDigitsAux f2 n := by
  induction n using Nat.strong_induction_on with
  | _ n ih =>
    intro f1 f2 h1 h2
    match f1, f2 with
    | fa + 1, fb + 1 =>
      by_cases h10 : n < 10
      · simp [natDigitsAux, h10]
      · have hdiv : n / 10 < n := Nat.div_lt_self (by omega) (by omega)
        simp only [natDigitsAux, h10, if_false]
        rw [ih (n / 10) hdiv fa fb (by omega) (by omega)]

/-- One-digit rendering. -/
theorem natDigits_lt10 {n : Nat} (h : n < 10) : natDigits n = [digitChar n] := by
  simp [natDigits, natDigitsAux, h]

/-- The recursive rendering step. -/
theorem natDigits_ge10 {n : Nat} (h : 10 ≤ n) :
    natDigits n = natDigits (n / 10) ++ [digitChar (n % 10)] := by
  have hdiv : n / 10 < n := Nat.div_lt_self (by omega) (by omega)
  unfold natDigits
  conv =>
    lhs
    rw [natDigitsAux]
  rw [if_neg (by omega)]
  rw [natDigitsAux_irrel (n / 10) n (n / 10 + 1) (by omega) (by omega)]

/-- A year in 1000..9999 renders as exactly four digit characters. -/
theorem natDigits_four {y : Nat} (h1 : 1000 ≤ y) (h2 : y < 10000) :
    ∃ a b c d : Nat, a < 10 ∧ b < 10 ∧ c < 10 ∧ d < 10 ∧
      natDigits y = [digitChar a, digitChar b, digitChar c, digitChar d] := by
  have e1 := natDigits_ge10 (n := y) (by omega)
  have e2 := natDigits_ge10 (n := y / 10) (by omega)
  have e3 := natDigits_ge10 (n := y / 10 / 10) (by omega)
  have e4 := natDigits_lt10 (n := y / 10 / 10 / 10) (by omega)
  refine ⟨y / 10 / 10 / 10, y / 10 / 10 % 10, y / 10 % 10, y % 10,
    by omega, by omega, by omega, by omega, ?_⟩
  rw [e1, e2, e3, e4]
  simp

/-- `digitChar` renders digits as ASCII digit characters. -/
theorem digitChar_isDigit {d : Nat} (h : d < 10) :
    (digitChar d).isDigit = true := by
  interval_cases d <;> decide

theorem append_data (a b : String) : (a ++ b).data = a.data ++ b.data := by
  obtain ⟨la⟩ := a
  obtain ⟨lb⟩ := b
  rfl

/-- Every month key that `ofIndex` renders for a 4-digit year passes the
(buggy) `isValidYYYYMM` test: months 01..09 through the start-anchored
alternative, months 10..12 through the end-anchored one. -/
theorem ofIndex_valid {idx : Int} (h1 : 12000 ≤ idx) (h2 : idx < 120000) :
    isValidYYYYMM (ofIndex idx) = true := by
  have hy1 : 1000 ≤ Int.fdiv idx 12 := by
    rw [Int.fdiv_eq_ediv _ (by omega)]
    omega
  have hy2 : Int.fdiv idx 12 < 10000 := by
    rw [Int.fdiv_eq_ediv _ (by omega)]
    omega
  have hm1 : 0 ≤ Int.fmod idx 12 := by
    rw [Int.fmod_eq_emod _ (by omega)]
    exact Int.emod_nonneg _ (by omega)
  have hm2 : Int.fmod idx 12 < 12 := by
    rw [Int.fmod_eq_emod _ (by omega)]
    exact Int.emod_lt_of_pos _ (by omega)
  set y : Int := Int.fdiv idx 12 with hy
  set mz : Int := Int.fmod idx 12 with hmz
  have hynat1 : 1000 ≤ y.toNat := by omega
  have hynat2 : y.toNat < 10000 := by omega
  obtain ⟨a, b, c, d, ha, hb, hc, hd, hdig⟩ := natDigits_four hynat1 hynat2
  have hyds : (intToString y).data
      = [digitChar a, digitChar b, digitChar c, digitChar d] := by
    unfold intToString
    rw [if_neg (by omega)]
    unfold natToString
    rw [hdig]
  set m : Nat := (mz + 1).toNat with hm
  have hmrange : 1 ≤ m ∧ m ≤ 12 := by omega
  unfold ofIndex isValidYYYYMM
  rw [← hy, ← hmz, ← hm]
  by_cases hlt : m < 10
  · -- "0" ++ single digit: the start-anchored alternative fires.
    have hpd : (pad2 m).data = '0' :: [digitChar m] := by
      unfold pad2
      rw [if_pos hlt]
      rw [append_data]
      unfold natToString
      rw [natDigits_lt10 hlt]
      rfl
    rw [append_data, append_data, hyds, hpd]
    have hg9 : ('1' ≤ digitChar m && digitChar m ≤ '9') = true := by
      have h1m : 1 ≤ m := hmrange.1
      interval_cases m <;> decide
    have hstart : matchStartAlt
        ([digitChar a, digitChar b, digitChar c, digitChar d]
          ++ ("-" : String).data ++ '0' :: [digitChar m]) = true := by
      show matchStartAlt
        [digitChar a, digitChar b, digitChar c, digitChar d, '-', '0',
          digitChar m] = true
      unfold matchStartAlt
      simp [digitChar_isDigit ha, digitChar_isDigit hb, digitChar_isDigit hc,
        digitChar_isDigit hd, hg9]
    rw [hstart]
    simp
  · -- 10..12: two digits ending in 0/1/2, the end-anchored alternative.
    have h1012 : 10 ≤ m ∧ m ≤ 12 := ⟨by omega, hmrange.2⟩
    have hpd : (pad2 m).data = [digitChar (m / 10), digitChar (m % 10)] := by
      unfold pad2
      rw [if_neg hlt]
      unfold natToString
      rw [natDigits_ge10 (by omega), natDigits_lt10 (by omega)]
      rfl
    rw [append_data, append_data, hyds, hpd]
    have hend : matchEndAlt
        ([digitChar a, digitChar b, digitChar c, digitChar d]
          ++ ("-" : String).data
          ++ [digitChar (m / 10), digitChar (m % 10)]) = true := by
      show matchEndAlt
        [digitChar a, digitChar b, digitChar c, digitChar d, '-',
          digitChar (m / 10), digitChar (m % 10)] = true
      unfold matchEndAlt
      simp only [List.reverse_cons, List.reverse_nil]
      have hm10 : m / 10 = 1 := by omega
      have hmod : m % 10 ≤ 2 := by omega
      rw [hm10]
      simp only [List.nil_append, List.cons_append]
      have hmod0 : m % 10 = 0 ∨ m % 10 = 1 ∨ m % 10 = 2 := by omega
      rcases hmod0 with h | h | h <;> rw [h] <;> decide
    rw [hend]
    simp

/-- The validation loop of `setCapacity` accepts a plan of valid months. -/
theorem validateCapacityEntries_none (l : List MonthlyCapacity)
    (h : ∀ e ∈ l, isValidYYYYMM e.month = true) :
    validateCapacityEntries l = none := by
  induction l with
  | nil => rfl
  | cons x xs ih =>
    unfold validateCapacityEntries
    rw [if_neg (by simp [h x (by simp)])]
    exact ih (fun e he => h e (by simp [he]))

/-- C8: in a UTC-or-east process timezone (`tzWest = false`) and for
4-digit years, `generateCapacityPlan(months, amount, growthRate, start)`
replaces the plan with exactly `months` entries at consecutive months from
the UTC-normalized start, entry `i` holding
`round(amount × (1+growthRate)^i)` and no adjustment (so `round(amount)`
for every entry when the growth rate is 0).  In a timezone west of UTC the
same call lands one month early: generating one month at 2025-03 yields
the key "2025-02" — the local-time `Date` getters applied to the
UTC-normalized start date are the code bug the claim exposes. -/
theorem claim_C8_generate (s : Subscription) (months : Int)
    (amount growthRate : Rat) (startIdx : Int) (now : String)
    (hm : 1 ≤ months) (ha : 0 ≤ amount) (hg : 0 ≤ growthRate)
    (hy1 : 12000 ≤ startIdx) (hy2 : startIdx + months ≤ 120000) :
    (∃ plan,
      s.generateCapacityPlan months amount growthRate startIdx false now
        = ({ s with
              metadata.capacityPlan := some plan
              last_update := now
              financeDirty := true }, none)
      ∧ plan.length = months.toNat
      ∧ (∀ k, k < months.toNat →
          plan.getD k ⟨"", 0, none⟩
            = ⟨ofIndex (startIdx + (k : Int)),
               jsRound (amount * (1 + growthRate) ^ k), none⟩))
    ∧ ((sub0.generateCapacityPlan 1 100 0 24302 true
          "t1").1.metadata.capacityPlan.getD []).map (fun e => e.month)
        = ["2025-02"]
    ∧ ofIndex 24302 = "2025-03" := by
  refine ⟨?_, by decide, by decide⟩
  have hplanValid : ∀ e ∈ (List.range months.toNat).map (fun (i : Nat) =>
      ({ month := ofIndex (startIdx + (i : Int))
         capacity := jsRound (amount * (1 + growthRate) ^ i) } : MonthlyCapacity)),
      isValidYYYYMM e.month = true := by
    intro e he
    rw [List.mem_map] at he
    obtain ⟨k, hk, rfl⟩ := he
    rw [List.mem_range] at hk
    exact ofIndex_valid (by omega) (by omega)
  refine ⟨(List.range months.toNat).map (fun (i : Nat) =>
      ({ month := ofIndex (startIdx + (i : Int))
         capacity := jsRound (amount * (1 + growthRate) ^ i) } : MonthlyCapacity)),
    ?_, ?_, ?_⟩
  · unfold Subscription.generateCapacityPlan
    rw [if_neg (by omega), if_neg (not_lt.mpr ha), if_neg (not_lt.mpr hg)]
    simp only [Bool.false_eq_true, if_false, sub_zero]
    unfold Subscription.setCapacity
    rw [validateCapacityEntries_none _ hplanValid]
  · simp
  · intro k hk
    rw [getD_map_range _ _ hk]

/-- C8 witness: three months at 100 units from 2025-03 in a UTC process. -/
theorem claim_C8_witness :
    (1 ≤ (3 : Int) ∧ (0 : Rat) ≤ 100 ∧ (0 : Rat) ≤ 0
      ∧ 12000 ≤ (24302 : Int) ∧ (24302 : Int) + 3 ≤ 120000)
    ∧ ∃ plan,
        sub0.generateCapacityPlan 3 100 0 24302 false "t1"
          = ({ sub0 with
                metadata.capacityPlan := some plan
                last_update := "t1"
                financeDirty := true }, none)
        ∧ plan.length = (3 : Int).toNat
        ∧ (∀ k, k < (3 : Int).toNat →
            plan.getD k ⟨"", 0, none⟩
              = ⟨ofIndex ((24302 : Int) + (k : Int)),
                 jsRound (100 * (1 + 0) ^ k), none⟩) :=
  ⟨⟨by decide, by decide, by decide, by decide, by decide⟩,
    (claim_C8_generate sub0 3 100 0 24302 "t1" (by decide) (by decide)
      (by decide) (by decide) (by decide)).1⟩

end Majik
